import Mathlib

/-!
# Complaint classification engine (`backend/config/aiService.js`)

A shallow embedding of the rule-based fallback classifier `builtInAIAnalyzer`,
of `generateReasoning` and of the orchestrator `analyzeComplaint`, together with
the seed data of `server.js` and the guards of the route handlers that call the
classifier or protect its results, followed by the properties proved about them.

JavaScript values that the classifier stores in its result object are
represented by `JSValue`; object literals used as lookup tables are association
lists read with `getProp`.
-/

namespace AiService

/-! ## JavaScript values and object lookup -/

/-- The fragment of JavaScript values that occurs in an analysis result: `num` holds
an integer number. `other` stands for every value outside the fragment (functions,
objects, numbers that are not integers, strings obtained by coercion). -/
inductive JSValue where
  | undefined
  | null
  | str (s : String)
  | num (n : Int)
  | nan
  | other
  deriving DecidableEq, Repr

/-- JavaScript truthiness (`ToBoolean`). -/
def JSValue.truthy : JSValue → Bool
  | .undefined => false
  | .null => false
  | .str s => s != ""
  | .num n => n != 0
  | .nan => false
  | .other => true

/-- Property names every object literal inherits from `Object.prototype`. -/
def objectPrototypeKeys : List String :=
  ["constructor", "__proto__", "hasOwnProperty", "isPrototypeOf",
   "propertyIsEnumerable", "toLocaleString", "toString", "valueOf",
   "__defineGetter__", "__defineSetter__", "__lookupGetter__", "__lookupSetter__"]

/-- Property read `obj[key]` on an object literal given by its own entries: an own
property yields its value, an inherited one a function or object (`other`), and
anything else `undefined`. -/
def getProp (obj : List (String × JSValue)) (key : String) : JSValue :=
  match obj.lookup key with
  | some v => v
  | none => if key ∈ objectPrototypeKeys then .other else .undefined

/-- The operator `a || b`. -/
def jsOr (a b : JSValue) : JSValue := if a.truthy then a else b

/-- The operator `a + b`: numeric addition on numbers, `null`, `undefined` and
`NaN`; when a string or an object takes part the result is a concatenated
string, which lies outside the modelled fragment. -/
def jsAdd : JSValue → JSValue → JSValue
  | .str _, _ => .other
  | _, .str _ => .other
  | .other, _ => .other
  | _, .other => .other
  | .num x, .num y => .num (x + y)
  | .num x, .null => .num x
  | .null, .num y => .num y
  | .null, .null => .num 0
  | _, _ => .nan

/-- The call `Math.min(a, b)`, with the same coercions as `jsAdd`. -/
def mathMin : JSValue → JSValue → JSValue
  | .str _, _ => .other
  | _, .str _ => .other
  | .other, _ => .other
  | _, .other => .other
  | .num x, .num y => .num (min x y)
  | .num x, .null => .num (min x 0)
  | .null, .num y => .num (min 0 y)
  | .null, .null => .num 0
  | _, _ => .nan

/-! ## Strings

`String.prototype.toLowerCase` follows the locale-insensitive case mappings of the
Unicode Character Database: the simple lowercase mapping of each code point, the
unconditional special mapping of U+0130 to U+0069 U+0307, and the mapping of U+03A3
to U+03C2 in the Final_Sigma context and to U+03C3 elsewhere. The tables below are
those of version 14.0 of the database. -/

/-- The simple lowercase mappings, as runs `(first, last, step, target)`: the code
points `first`, `first + step`, ..., `last` map to `target`, `target + step`, ...;
every code point outside the runs maps to itself. The runs are in increasing order
and do not overlap. -/
def lowerRuns : List (Nat × Nat × Nat × Nat) :=
  [(0x41, 0x5A, 1, 0x61), (0xC0, 0xD6, 1, 0xE0), (0xD8, 0xDE, 1, 0xF8),
   (0x100, 0x12E, 2, 0x101), (0x132, 0x136, 2, 0x133), (0x139, 0x147, 2, 0x13A),
   (0x14A, 0x176, 2, 0x14B), (0x178, 0x178, 1, 0xFF), (0x179, 0x17D, 2, 0x17A),
   (0x181, 0x181, 1, 0x253), (0x182, 0x184, 2, 0x183), (0x186, 0x186, 1, 0x254),
   (0x187, 0x187, 1, 0x188), (0x189, 0x18A, 1, 0x256), (0x18B, 0x18B, 1, 0x18C),
   (0x18E, 0x18E, 1, 0x1DD), (0x18F, 0x18F, 1, 0x259), (0x190, 0x190, 1, 0x25B),
   (0x191, 0x191, 1, 0x192), (0x193, 0x193, 1, 0x260), (0x194, 0x194, 1, 0x263),
   (0x196, 0x196, 1, 0x269), (0x197, 0x197, 1, 0x268), (0x198, 0x198, 1, 0x199),
   (0x19C, 0x19C, 1, 0x26F), (0x19D, 0x19D, 1, 0x272), (0x19F, 0x19F, 1, 0x275),
   (0x1A0, 0x1A4, 2, 0x1A1), (0x1A6, 0x1A6, 1, 0x280), (0x1A7, 0x1A7, 1, 0x1A8),
   (0x1A9, 0x1A9, 1, 0x283), (0x1AC, 0x1AC, 1, 0x1AD), (0x1AE, 0x1AE, 1, 0x288),
   (0x1AF, 0x1AF, 1, 0x1B0), (0x1B1, 0x1B2, 1, 0x28A), (0x1B3, 0x1B5, 2, 0x1B4),
   (0x1B7, 0x1B7, 1, 0x292), (0x1B8, 0x1B8, 1, 0x1B9), (0x1BC, 0x1BC, 1, 0x1BD),
   (0x1C4, 0x1C4, 1, 0x1C6), (0x1C5, 0x1C5, 1, 0x1C6), (0x1C7, 0x1C7, 1, 0x1C9),
   (0x1C8, 0x1C8, 1, 0x1C9), (0x1CA, 0x1CA, 1, 0x1CC), (0x1CB, 0x1DB, 2, 0x1CC),
   (0x1DE, 0x1EE, 2, 0x1DF), (0x1F1, 0x1F1, 1, 0x1F3), (0x1F2, 0x1F4, 2, 0x1F3),
   (0x1F6, 0x1F6, 1, 0x195), (0x1F7, 0x1F7, 1, 0x1BF), (0x1F8, 0x21E, 2, 0x1F9),
   (0x220, 0x220, 1, 0x19E), (0x222, 0x232, 2, 0x223), (0x23A, 0x23A, 1, 0x2C65),
   (0x23B, 0x23B, 1, 0x23C), (0x23D, 0x23D, 1, 0x19A), (0x23E, 0x23E, 1, 0x2C66),
   (0x241, 0x241, 1, 0x242), (0x243, 0x243, 1, 0x180), (0x244, 0x244, 1, 0x289),
   (0x245, 0x245, 1, 0x28C), (0x246, 0x24E, 2, 0x247), (0x370, 0x372, 2, 0x371),
   (0x376, 0x376, 1, 0x377), (0x37F, 0x37F, 1, 0x3F3), (0x386, 0x386, 1, 0x3AC),
   (0x388, 0x38A, 1, 0x3AD), (0x38C, 0x38C, 1, 0x3CC), (0x38E, 0x38F, 1, 0x3CD),
   (0x391, 0x3A1, 1, 0x3B1), (0x3A3, 0x3AB, 1, 0x3C3), (0x3CF, 0x3CF, 1, 0x3D7),
   (0x3D8, 0x3EE, 2, 0x3D9), (0x3F4, 0x3F4, 1, 0x3B8), (0x3F7, 0x3F7, 1, 0x3F8),
   (0x3F9, 0x3F9, 1, 0x3F2), (0x3FA, 0x3FA, 1, 0x3FB), (0x3FD, 0x3FF, 1, 0x37B),
   (0x400, 0x40F, 1, 0x450), (0x410, 0x42F, 1, 0x430), (0x460, 0x480, 2, 0x461),
   (0x48A, 0x4BE, 2, 0x48B), (0x4C0, 0x4C0, 1, 0x4CF), (0x4C1, 0x4CD, 2, 0x4C2),
   (0x4D0, 0x52E, 2, 0x4D1), (0x531, 0x556, 1, 0x561), (0x10A0, 0x10C5, 1, 0x2D00),
   (0x10C7, 0x10C7, 1, 0x2D27), (0x10CD, 0x10CD, 1, 0x2D2D), (0x13A0, 0x13EF, 1, 0xAB70),
   (0x13F0, 0x13F5, 1, 0x13F8), (0x1C90, 0x1CBA, 1, 0x10D0), (0x1CBD, 0x1CBF, 1, 0x10FD),
   (0x1E00, 0x1E94, 2, 0x1E01), (0x1E9E, 0x1E9E, 1, 0xDF), (0x1EA0, 0x1EFE, 2, 0x1EA1),
   (0x1F08, 0x1F0F, 1, 0x1F00), (0x1F18, 0x1F1D, 1, 0x1F10), (0x1F28, 0x1F2F, 1, 0x1F20),
   (0x1F38, 0x1F3F, 1, 0x1F30), (0x1F48, 0x1F4D, 1, 0x1F40), (0x1F59, 0x1F5F, 2, 0x1F51),
   (0x1F68, 0x1F6F, 1, 0x1F60), (0x1F88, 0x1F8F, 1, 0x1F80), (0x1F98, 0x1F9F, 1, 0x1F90),
   (0x1FA8, 0x1FAF, 1, 0x1FA0), (0x1FB8, 0x1FB9, 1, 0x1FB0), (0x1FBA, 0x1FBB, 1, 0x1F70),
   (0x1FBC, 0x1FBC, 1, 0x1FB3), (0x1FC8, 0x1FCB, 1, 0x1F72), (0x1FCC, 0x1FCC, 1, 0x1FC3),
   (0x1FD8, 0x1FD9, 1, 0x1FD0), (0x1FDA, 0x1FDB, 1, 0x1F76), (0x1FE8, 0x1FE9, 1, 0x1FE0),
   (0x1FEA, 0x1FEB, 1, 0x1F7A), (0x1FEC, 0x1FEC, 1, 0x1FE5), (0x1FF8, 0x1FF9, 1, 0x1F78),
   (0x1FFA, 0x1FFB, 1, 0x1F7C), (0x1FFC, 0x1FFC, 1, 0x1FF3), (0x2126, 0x2126, 1, 0x3C9),
   (0x212A, 0x212A, 1, 0x6B), (0x212B, 0x212B, 1, 0xE5), (0x2132, 0x2132, 1, 0x214E),
   (0x2160, 0x216F, 1, 0x2170), (0x2183, 0x2183, 1, 0x2184), (0x24B6, 0x24CF, 1, 0x24D0),
   (0x2C00, 0x2C2F, 1, 0x2C30), (0x2C60, 0x2C60, 1, 0x2C61), (0x2C62, 0x2C62, 1, 0x26B),
   (0x2C63, 0x2C63, 1, 0x1D7D), (0x2C64, 0x2C64, 1, 0x27D), (0x2C67, 0x2C6B, 2, 0x2C68),
   (0x2C6D, 0x2C6D, 1, 0x251), (0x2C6E, 0x2C6E, 1, 0x271), (0x2C6F, 0x2C6F, 1, 0x250),
   (0x2C70, 0x2C70, 1, 0x252), (0x2C72, 0x2C72, 1, 0x2C73), (0x2C75, 0x2C75, 1, 0x2C76),
   (0x2C7E, 0x2C7F, 1, 0x23F), (0x2C80, 0x2CE2, 2, 0x2C81), (0x2CEB, 0x2CED, 2, 0x2CEC),
   (0x2CF2, 0x2CF2, 1, 0x2CF3), (0xA640, 0xA66C, 2, 0xA641), (0xA680, 0xA69A, 2, 0xA681),
   (0xA722, 0xA72E, 2, 0xA723), (0xA732, 0xA76E, 2, 0xA733), (0xA779, 0xA77B, 2, 0xA77A),
   (0xA77D, 0xA77D, 1, 0x1D79), (0xA77E, 0xA786, 2, 0xA77F), (0xA78B, 0xA78B, 1, 0xA78C),
   (0xA78D, 0xA78D, 1, 0x265), (0xA790, 0xA792, 2, 0xA791), (0xA796, 0xA7A8, 2, 0xA797),
   (0xA7AA, 0xA7AA, 1, 0x266), (0xA7AB, 0xA7AB, 1, 0x25C), (0xA7AC, 0xA7AC, 1, 0x261),
   (0xA7AD, 0xA7AD, 1, 0x26C), (0xA7AE, 0xA7AE, 1, 0x26A), (0xA7B0, 0xA7B0, 1, 0x29E),
   (0xA7B1, 0xA7B1, 1, 0x287), (0xA7B2, 0xA7B2, 1, 0x29D), (0xA7B3, 0xA7B3, 1, 0xAB53),
   (0xA7B4, 0xA7C2, 2, 0xA7B5), (0xA7C4, 0xA7C4, 1, 0xA794), (0xA7C5, 0xA7C5, 1, 0x282),
   (0xA7C6, 0xA7C6, 1, 0x1D8E), (0xA7C7, 0xA7C9, 2, 0xA7C8), (0xA7D0, 0xA7D0, 1, 0xA7D1),
   (0xA7D6, 0xA7D8, 2, 0xA7D7), (0xA7F5, 0xA7F5, 1, 0xA7F6), (0xFF21, 0xFF3A, 1, 0xFF41),
   (0x10400, 0x10427, 1, 0x10428), (0x104B0, 0x104D3, 1, 0x104D8), (0x10570, 0x1057A, 1, 0x10597),
   (0x1057C, 0x1058A, 1, 0x105A3), (0x1058C, 0x10592, 1, 0x105B3), (0x10594, 0x10595, 1, 0x105BB),
   (0x10C80, 0x10CB2, 1, 0x10CC0), (0x118A0, 0x118BF, 1, 0x118C0), (0x16E40, 0x16E5F, 1, 0x16E60),
   (0x1E900, 0x1E921, 1, 0x1E922)]

/-- The code points with the property Case_Ignorable, as ranges in increasing
order. -/
def caseIgnorableRanges : List (Nat × Nat) :=
  [(0x27, 0x27), (0x2E, 0x2E), (0x3A, 0x3A), (0x5E, 0x5E), (0x60, 0x60),
   (0xA8, 0xA8), (0xAD, 0xAD), (0xAF, 0xAF), (0xB4, 0xB4), (0xB7, 0xB8),
   (0x2B0, 0x36F), (0x374, 0x375), (0x37A, 0x37A), (0x384, 0x385), (0x387, 0x387),
   (0x483, 0x489), (0x559, 0x559), (0x55F, 0x55F), (0x591, 0x5BD), (0x5BF, 0x5BF),
   (0x5C1, 0x5C2), (0x5C4, 0x5C5), (0x5C7, 0x5C7), (0x5F4, 0x5F4), (0x600, 0x605),
   (0x610, 0x61A), (0x61C, 0x61C), (0x640, 0x640), (0x64B, 0x65F), (0x670, 0x670),
   (0x6D6, 0x6DD), (0x6DF, 0x6E8), (0x6EA, 0x6ED), (0x70F, 0x70F), (0x711, 0x711),
   (0x730, 0x74A), (0x7A6, 0x7B0), (0x7EB, 0x7F5), (0x7FA, 0x7FA), (0x7FD, 0x7FD),
   (0x816, 0x82D), (0x859, 0x85B), (0x888, 0x888), (0x890, 0x891), (0x898, 0x89F),
   (0x8C9, 0x902), (0x93A, 0x93A), (0x93C, 0x93C), (0x941, 0x948), (0x94D, 0x94D),
   (0x951, 0x957), (0x962, 0x963), (0x971, 0x971), (0x981, 0x981), (0x9BC, 0x9BC),
   (0x9C1, 0x9C4), (0x9CD, 0x9CD), (0x9E2, 0x9E3), (0x9FE, 0x9FE), (0xA01, 0xA02),
   (0xA3C, 0xA3C), (0xA41, 0xA42), (0xA47, 0xA48), (0xA4B, 0xA4D), (0xA51, 0xA51),
   (0xA70, 0xA71), (0xA75, 0xA75), (0xA81, 0xA82), (0xABC, 0xABC), (0xAC1, 0xAC5),
   (0xAC7, 0xAC8), (0xACD, 0xACD), (0xAE2, 0xAE3), (0xAFA, 0xAFF), (0xB01, 0xB01),
   (0xB3C, 0xB3C), (0xB3F, 0xB3F), (0xB41, 0xB44), (0xB4D, 0xB4D), (0xB55, 0xB56),
   (0xB62, 0xB63), (0xB82, 0xB82), (0xBC0, 0xBC0), (0xBCD, 0xBCD), (0xC00, 0xC00),
   (0xC04, 0xC04), (0xC3C, 0xC3C), (0xC3E, 0xC40), (0xC46, 0xC48), (0xC4A, 0xC4D),
   (0xC55, 0xC56), (0xC62, 0xC63), (0xC81, 0xC81), (0xCBC, 0xCBC), (0xCBF, 0xCBF),
   (0xCC6, 0xCC6), (0xCCC, 0xCCD), (0xCE2, 0xCE3), (0xD00, 0xD01), (0xD3B, 0xD3C),
   (0xD41, 0xD44), (0xD4D, 0xD4D), (0xD62, 0xD63), (0xD81, 0xD81), (0xDCA, 0xDCA),
   (0xDD2, 0xDD4), (0xDD6, 0xDD6), (0xE31, 0xE31), (0xE34, 0xE3A), (0xE46, 0xE4E),
   (0xEB1, 0xEB1), (0xEB4, 0xEBC), (0xEC6, 0xEC6), (0xEC8, 0xECD), (0xF18, 0xF19),
   (0xF35, 0xF35), (0xF37, 0xF37), (0xF39, 0xF39), (0xF71, 0xF7E), (0xF80, 0xF84),
   (0xF86, 0xF87), (0xF8D, 0xF97), (0xF99, 0xFBC), (0xFC6, 0xFC6), (0x102D, 0x1030),
   (0x1032, 0x1037), (0x1039, 0x103A), (0x103D, 0x103E), (0x1058, 0x1059), (0x105E, 0x1060),
   (0x1071, 0x1074), (0x1082, 0x1082), (0x1085, 0x1086), (0x108D, 0x108D), (0x109D, 0x109D),
   (0x10FC, 0x10FC), (0x135D, 0x135F), (0x1712, 0x1714), (0x1732, 0x1733), (0x1752, 0x1753),
   (0x1772, 0x1773), (0x17B4, 0x17B5), (0x17B7, 0x17BD), (0x17C6, 0x17C6), (0x17C9, 0x17D3),
   (0x17D7, 0x17D7), (0x17DD, 0x17DD), (0x180B, 0x180F), (0x1843, 0x1843), (0x1885, 0x1886),
   (0x18A9, 0x18A9), (0x1920, 0x1922), (0x1927, 0x1928), (0x1932, 0x1932), (0x1939, 0x193B),
   (0x1A17, 0x1A18), (0x1A1B, 0x1A1B), (0x1A56, 0x1A56), (0x1A58, 0x1A5E), (0x1A60, 0x1A60),
   (0x1A62, 0x1A62), (0x1A65, 0x1A6C), (0x1A73, 0x1A7C), (0x1A7F, 0x1A7F), (0x1AA7, 0x1AA7),
   (0x1AB0, 0x1ACE), (0x1B00, 0x1B03), (0x1B34, 0x1B34), (0x1B36, 0x1B3A), (0x1B3C, 0x1B3C),
   (0x1B42, 0x1B42), (0x1B6B, 0x1B73), (0x1B80, 0x1B81), (0x1BA2, 0x1BA5), (0x1BA8, 0x1BA9),
   (0x1BAB, 0x1BAD), (0x1BE6, 0x1BE6), (0x1BE8, 0x1BE9), (0x1BED, 0x1BED), (0x1BEF, 0x1BF1),
   (0x1C2C, 0x1C33), (0x1C36, 0x1C37), (0x1C78, 0x1C7D), (0x1CD0, 0x1CD2), (0x1CD4, 0x1CE0),
   (0x1CE2, 0x1CE8), (0x1CED, 0x1CED), (0x1CF4, 0x1CF4), (0x1CF8, 0x1CF9), (0x1D2C, 0x1D6A),
   (0x1D78, 0x1D78), (0x1D9B, 0x1DFF), (0x1FBD, 0x1FBD), (0x1FBF, 0x1FC1), (0x1FCD, 0x1FCF),
   (0x1FDD, 0x1FDF), (0x1FED, 0x1FEF), (0x1FFD, 0x1FFE), (0x200B, 0x200F), (0x2018, 0x2019),
   (0x2024, 0x2024), (0x2027, 0x2027), (0x202A, 0x202E), (0x2060, 0x2064), (0x2066, 0x206F),
   (0x2071, 0x2071), (0x207F, 0x207F), (0x2090, 0x209C), (0x20D0, 0x20F0), (0x2C7C, 0x2C7D),
   (0x2CEF, 0x2CF1), (0x2D6F, 0x2D6F), (0x2D7F, 0x2D7F), (0x2DE0, 0x2DFF), (0x2E2F, 0x2E2F),
   (0x3005, 0x3005), (0x302A, 0x302D), (0x3031, 0x3035), (0x303B, 0x303B), (0x3099, 0x309E),
   (0x30FC, 0x30FE), (0xA015, 0xA015), (0xA4F8, 0xA4FD), (0xA60C, 0xA60C), (0xA66F, 0xA672),
   (0xA674, 0xA67D), (0xA67F, 0xA67F), (0xA69C, 0xA69F), (0xA6F0, 0xA6F1), (0xA700, 0xA721),
   (0xA770, 0xA770), (0xA788, 0xA78A), (0xA7F2, 0xA7F4), (0xA7F8, 0xA7F9), (0xA802, 0xA802),
   (0xA806, 0xA806), (0xA80B, 0xA80B), (0xA825, 0xA826), (0xA82C, 0xA82C), (0xA8C4, 0xA8C5),
   (0xA8E0, 0xA8F1), (0xA8FF, 0xA8FF), (0xA926, 0xA92D), (0xA947, 0xA951), (0xA980, 0xA982),
   (0xA9B3, 0xA9B3), (0xA9B6, 0xA9B9), (0xA9BC, 0xA9BD), (0xA9CF, 0xA9CF), (0xA9E5, 0xA9E6),
   (0xAA29, 0xAA2E), (0xAA31, 0xAA32), (0xAA35, 0xAA36), (0xAA43, 0xAA43), (0xAA4C, 0xAA4C),
   (0xAA70, 0xAA70), (0xAA7C, 0xAA7C), (0xAAB0, 0xAAB0), (0xAAB2, 0xAAB4), (0xAAB7, 0xAAB8),
   (0xAABE, 0xAABF), (0xAAC1, 0xAAC1), (0xAADD, 0xAADD), (0xAAEC, 0xAAED), (0xAAF3, 0xAAF4),
   (0xAAF6, 0xAAF6), (0xAB5B, 0xAB5F), (0xAB69, 0xAB6B), (0xABE5, 0xABE5), (0xABE8, 0xABE8),
   (0xABED, 0xABED), (0xFB1E, 0xFB1E), (0xFBB2, 0xFBC2), (0xFE00, 0xFE0F), (0xFE13, 0xFE13),
   (0xFE20, 0xFE2F), (0xFE52, 0xFE52), (0xFE55, 0xFE55), (0xFEFF, 0xFEFF), (0xFF07, 0xFF07),
   (0xFF0E, 0xFF0E), (0xFF1A, 0xFF1A), (0xFF3E, 0xFF3E), (0xFF40, 0xFF40), (0xFF70, 0xFF70),
   (0xFF9E, 0xFF9F), (0xFFE3, 0xFFE3), (0xFFF9, 0xFFFB), (0x101FD, 0x101FD), (0x102E0, 0x102E0),
   (0x10376, 0x1037A), (0x10780, 0x10785), (0x10787, 0x107B0), (0x107B2, 0x107BA), (0x10A01, 0x10A03),
   (0x10A05, 0x10A06), (0x10A0C, 0x10A0F), (0x10A38, 0x10A3A), (0x10A3F, 0x10A3F), (0x10AE5, 0x10AE6),
   (0x10D24, 0x10D27), (0x10EAB, 0x10EAC), (0x10F46, 0x10F50), (0x10F82, 0x10F85), (0x11001, 0x11001),
   (0x11038, 0x11046), (0x11070, 0x11070), (0x11073, 0x11074), (0x1107F, 0x11081), (0x110B3, 0x110B6),
   (0x110B9, 0x110BA), (0x110BD, 0x110BD), (0x110C2, 0x110C2), (0x110CD, 0x110CD), (0x11100, 0x11102),
   (0x11127, 0x1112B), (0x1112D, 0x11134), (0x11173, 0x11173), (0x11180, 0x11181), (0x111B6, 0x111BE),
   (0x111C9, 0x111CC), (0x111CF, 0x111CF), (0x1122F, 0x11231), (0x11234, 0x11234), (0x11236, 0x11237),
   (0x1123E, 0x1123E), (0x112DF, 0x112DF), (0x112E3, 0x112EA), (0x11300, 0x11301), (0x1133B, 0x1133C),
   (0x11340, 0x11340), (0x11366, 0x1136C), (0x11370, 0x11374), (0x11438, 0x1143F), (0x11442, 0x11444),
   (0x11446, 0x11446), (0x1145E, 0x1145E), (0x114B3, 0x114B8), (0x114BA, 0x114BA), (0x114BF, 0x114C0),
   (0x114C2, 0x114C3), (0x115B2, 0x115B5), (0x115BC, 0x115BD), (0x115BF, 0x115C0), (0x115DC, 0x115DD),
   (0x11633, 0x1163A), (0x1163D, 0x1163D), (0x1163F, 0x11640), (0x116AB, 0x116AB), (0x116AD, 0x116AD),
   (0x116B0, 0x116B5), (0x116B7, 0x116B7), (0x1171D, 0x1171F), (0x11722, 0x11725), (0x11727, 0x1172B),
   (0x1182F, 0x11837), (0x11839, 0x1183A), (0x1193B, 0x1193C), (0x1193E, 0x1193E), (0x11943, 0x11943),
   (0x119D4, 0x119D7), (0x119DA, 0x119DB), (0x119E0, 0x119E0), (0x11A01, 0x11A0A), (0x11A33, 0x11A38),
   (0x11A3B, 0x11A3E), (0x11A47, 0x11A47), (0x11A51, 0x11A56), (0x11A59, 0x11A5B), (0x11A8A, 0x11A96),
   (0x11A98, 0x11A99), (0x11C30, 0x11C36), (0x11C38, 0x11C3D), (0x11C3F, 0x11C3F), (0x11C92, 0x11CA7),
   (0x11CAA, 0x11CB0), (0x11CB2, 0x11CB3), (0x11CB5, 0x11CB6), (0x11D31, 0x11D36), (0x11D3A, 0x11D3A),
   (0x11D3C, 0x11D3D), (0x11D3F, 0x11D45), (0x11D47, 0x11D47), (0x11D90, 0x11D91), (0x11D95, 0x11D95),
   (0x11D97, 0x11D97), (0x11EF3, 0x11EF4), (0x13430, 0x13438), (0x16AF0, 0x16AF4), (0x16B30, 0x16B36),
   (0x16B40, 0x16B43), (0x16F4F, 0x16F4F), (0x16F8F, 0x16F9F), (0x16FE0, 0x16FE1), (0x16FE3, 0x16FE4),
   (0x1AFF0, 0x1AFF3), (0x1AFF5, 0x1AFFB), (0x1AFFD, 0x1AFFE), (0x1BC9D, 0x1BC9E), (0x1BCA0, 0x1BCA3),
   (0x1CF00, 0x1CF2D), (0x1CF30, 0x1CF46), (0x1D167, 0x1D169), (0x1D173, 0x1D182), (0x1D185, 0x1D18B),
   (0x1D1AA, 0x1D1AD), (0x1D242, 0x1D244), (0x1DA00, 0x1DA36), (0x1DA3B, 0x1DA6C), (0x1DA75, 0x1DA75),
   (0x1DA84, 0x1DA84), (0x1DA9B, 0x1DA9F), (0x1DAA1, 0x1DAAF), (0x1E000, 0x1E006), (0x1E008, 0x1E018),
   (0x1E01B, 0x1E021), (0x1E023, 0x1E024), (0x1E026, 0x1E02A), (0x1E130, 0x1E13D), (0x1E2AE, 0x1E2AE),
   (0x1E2EC, 0x1E2EF), (0x1E8D0, 0x1E8D6), (0x1E944, 0x1E94B), (0x1F3FB, 0x1F3FF), (0xE0001, 0xE0001),
   (0xE0020, 0xE007F), (0xE0100, 0xE01EF)]

/-- The code points with the property Cased, as ranges in increasing order. -/
def casedRanges : List (Nat × Nat) :=
  [(0x41, 0x5A), (0x61, 0x7A), (0xAA, 0xAA), (0xB5, 0xB5), (0xBA, 0xBA),
   (0xC0, 0xD6), (0xD8, 0xF6), (0xF8, 0x1BA), (0x1BC, 0x1BF), (0x1C4, 0x293),
   (0x295, 0x2B8), (0x2C0, 0x2C1), (0x2E0, 0x2E4), (0x345, 0x345), (0x370, 0x373),
   (0x376, 0x377), (0x37A, 0x37D), (0x37F, 0x37F), (0x386, 0x386), (0x388, 0x38A),
   (0x38C, 0x38C), (0x38E, 0x3A1), (0x3A3, 0x3F5), (0x3F7, 0x481), (0x48A, 0x52F),
   (0x531, 0x556), (0x560, 0x588), (0x10A0, 0x10C5), (0x10C7, 0x10C7), (0x10CD, 0x10CD),
   (0x10D0, 0x10FA), (0x10FD, 0x10FF), (0x13A0, 0x13F5), (0x13F8, 0x13FD), (0x1C80, 0x1C88),
   (0x1C90, 0x1CBA), (0x1CBD, 0x1CBF), (0x1D00, 0x1DBF), (0x1E00, 0x1F15), (0x1F18, 0x1F1D),
   (0x1F20, 0x1F45), (0x1F48, 0x1F4D), (0x1F50, 0x1F57), (0x1F59, 0x1F59), (0x1F5B, 0x1F5B),
   (0x1F5D, 0x1F5D), (0x1F5F, 0x1F7D), (0x1F80, 0x1FB4), (0x1FB6, 0x1FBC), (0x1FBE, 0x1FBE),
   (0x1FC2, 0x1FC4), (0x1FC6, 0x1FCC), (0x1FD0, 0x1FD3), (0x1FD6, 0x1FDB), (0x1FE0, 0x1FEC),
   (0x1FF2, 0x1FF4), (0x1FF6, 0x1FFC), (0x2071, 0x2071), (0x207F, 0x207F), (0x2090, 0x209C),
   (0x2102, 0x2102), (0x2107, 0x2107), (0x210A, 0x2113), (0x2115, 0x2115), (0x2119, 0x211D),
   (0x2124, 0x2124), (0x2126, 0x2126), (0x2128, 0x2128), (0x212A, 0x212D), (0x212F, 0x2134),
   (0x2139, 0x2139), (0x213C, 0x213F), (0x2145, 0x2149), (0x214E, 0x214E), (0x2160, 0x217F),
   (0x2183, 0x2184), (0x24B6, 0x24E9), (0x2C00, 0x2CE4), (0x2CEB, 0x2CEE), (0x2CF2, 0x2CF3),
   (0x2D00, 0x2D25), (0x2D27, 0x2D27), (0x2D2D, 0x2D2D), (0xA640, 0xA66D), (0xA680, 0xA69D),
   (0xA722, 0xA787), (0xA78B, 0xA78E), (0xA790, 0xA7CA), (0xA7D0, 0xA7D1), (0xA7D3, 0xA7D3),
   (0xA7D5, 0xA7D9), (0xA7F5, 0xA7F6), (0xA7F8, 0xA7FA), (0xAB30, 0xAB5A), (0xAB5C, 0xAB68),
   (0xAB70, 0xABBF), (0xFB00, 0xFB06), (0xFB13, 0xFB17), (0xFF21, 0xFF3A), (0xFF41, 0xFF5A),
   (0x10400, 0x1044F), (0x104B0, 0x104D3), (0x104D8, 0x104FB), (0x10570, 0x1057A), (0x1057C, 0x1058A),
   (0x1058C, 0x10592), (0x10594, 0x10595), (0x10597, 0x105A1), (0x105A3, 0x105B1), (0x105B3, 0x105B9),
   (0x105BB, 0x105BC), (0x10780, 0x10780), (0x10783, 0x10785), (0x10787, 0x107B0), (0x107B2, 0x107BA),
   (0x10C80, 0x10CB2), (0x10CC0, 0x10CF2), (0x118A0, 0x118DF), (0x16E40, 0x16E7F), (0x1D400, 0x1D454),
   (0x1D456, 0x1D49C), (0x1D49E, 0x1D49F), (0x1D4A2, 0x1D4A2), (0x1D4A5, 0x1D4A6), (0x1D4A9, 0x1D4AC),
   (0x1D4AE, 0x1D4B9), (0x1D4BB, 0x1D4BB), (0x1D4BD, 0x1D4C3), (0x1D4C5, 0x1D505), (0x1D507, 0x1D50A),
   (0x1D50D, 0x1D514), (0x1D516, 0x1D51C), (0x1D51E, 0x1D539), (0x1D53B, 0x1D53E), (0x1D540, 0x1D544),
   (0x1D546, 0x1D546), (0x1D54A, 0x1D550), (0x1D552, 0x1D6A5), (0x1D6A8, 0x1D6C0), (0x1D6C2, 0x1D6DA),
   (0x1D6DC, 0x1D6FA), (0x1D6FC, 0x1D714), (0x1D716, 0x1D734), (0x1D736, 0x1D74E), (0x1D750, 0x1D76E),
   (0x1D770, 0x1D788), (0x1D78A, 0x1D7A8), (0x1D7AA, 0x1D7C2), (0x1D7C4, 0x1D7CB), (0x1DF00, 0x1DF09),
   (0x1DF0B, 0x1DF1E), (0x1E900, 0x1E943), (0x1F130, 0x1F149), (0x1F150, 0x1F169), (0x1F170, 0x1F189)]

/-- Lookup of a code point in a list of runs. -/
def simpleLowerAux : List (Nat × Nat × Nat × Nat) → Nat → Nat
  | [], n => n
  | (first, last, step, target) :: rest, n =>
    if n < first then n
    else if n ≤ last then
      if (n - first) % step = 0 then target + (n - first) else n
    else simpleLowerAux rest n

/-- The simple lowercase mapping of a code point. -/
def simpleLower (n : Nat) : Nat := simpleLowerAux lowerRuns n

/-- Membership of a code point in a list of ranges. -/
def inRanges : List (Nat × Nat) → Nat → Bool
  | [], _ => false
  | (lo, hi) :: rest, n =>
    if n < lo then false else if n ≤ hi then true else inRanges rest n

/-- The property Cased. -/
def isCased (c : Char) : Bool := inRanges casedRanges c.toNat

/-- The property Case_Ignorable. -/
def isCaseIgnorable (c : Char) : Bool := inRanges caseIgnorableRanges c.toNat

/-- Walking away from a position, the first character that is not case-ignorable
exists and is cased. -/
def followedByCased : List Char → Bool
  | [] => false
  | c :: cs => if isCaseIgnorable c then followedByCased cs else isCased c

/-- The lowercase form of one character, given the characters before it (nearest
first) and after it. -/
def lowerChar (before : List Char) (c : Char) (after : List Char) : List Char :=
  if c.toNat = 0x3A3 then
    if followedByCased before && !followedByCased after then [Char.ofNat 0x3C2]
    else [Char.ofNat 0x3C3]
  else if c.toNat = 0x130 then [Char.ofNat 0x69, Char.ofNat 0x307]
  else [Char.ofNat (simpleLower c.toNat)]

/-- Lowercasing of the rest of a text, given the characters already passed (nearest
first). -/
def lowerList : List Char → List Char → List Char
  | _, [] => []
  | before, c :: after => lowerChar before c after ++ lowerList (c :: before) after

/-- The method `description.toLowerCase()`. -/
def toLowerCase (s : String) : String := ⟨lowerList [] s.data⟩

/-- A code point that lowercasing leaves alone whatever the context: it is a valid
scalar value, its simple mapping is itself, and it is neither U+03A3 nor U+0130. -/
def stableNat (m : Nat) : Bool :=
  m != 0x3A3 && m != 0x130 && simpleLower m == m && decide (m.isValidChar)

/-- The run `q` maps the code point `m`. -/
def runMaps (q : Nat × Nat × Nat × Nat) (m : Nat) : Bool :=
  Nat.ble q.1 m && Nat.ble m q.2.1 && Nat.beq ((m - q.1) % q.2.2.1) 0

/-- No target of the run `r` is a code point that the run `q` maps: the targets lie
below the code points of `q`, or above them, or they lie between them, `q` mapping
every second code point and the targets of `r` being the others. -/
def runApart (r q : Nat × Nat × Nat × Nat) : Bool :=
  Nat.blt (r.2.2.2 + (r.2.1 - r.1)) q.1 || Nat.blt q.2.1 r.2.2.2 ||
  ((Nat.beq (r.2.2.1 % 2) 0 || Nat.beq r.1 r.2.1) && Nat.beq q.2.2.1 2 &&
    Nat.beq ((r.2.2.2 + q.1) % 2) 1)

/-- The targets of the run are valid scalar values. -/
def runValid (r : Nat × Nat × Nat × Nat) : Bool :=
  Nat.blt (r.2.2.2 + (r.2.1 - r.1)) 0xD800 ||
  (Nat.blt 0xDFFF r.2.2.2 && Nat.blt (r.2.2.2 + (r.2.1 - r.1)) 0x110000)

/-- Every target of a run is left alone by lowercasing: it is valid, and it is
neither U+0130 nor U+03A3 nor a code point that a run of the table maps. -/
def runStable (r : Nat × Nat × Nat × Nat) : Bool :=
  runValid r &&
  ((0x130, 0x130, 1, 0x69) :: (0x3A3, 0x3A3, 1, 0x3C3) :: lowerRuns).all (runApart r)

/-- Every target of the table of simple mappings is left alone by lowercasing. -/
def lowerRunsStable : Bool := lowerRuns.all runStable

/-- The two lowercase sigmas identified: U+03C2 is replaced by U+03C3. -/
def foldSigma (c : Char) : Char := if c.toNat = 0x3C2 then Char.ofNat 0x3C3 else c

/-- Lowercasing character by character without regard to the context, with the two
lowercase sigmas identified. -/
def foldedLower : List Char → List Char
  | [] => []
  | c :: cs => (lowerChar [] c []).map foldSigma ++ foldedLower cs

/-- A keyword with no lowercase sigma in it. -/
def sigmaFree (kw : String) : Bool :=
  kw.data.all (fun x => x.toNat != 0x3C2 && x.toNat != 0x3C3)

/-- Search for `kw` at some position of `text`. -/
def includesAux : List Char → List Char → Bool
  | [], kw => kw.isEmpty
  | c :: cs, kw => kw.isPrefixOf (c :: cs) || includesAux cs kw

/-- The method `text.includes(kw)`: `kw` occurs in `text` as a contiguous substring.
All keywords of the tables are ASCII, for which matching character by character and
matching UTF-16 code unit by code unit agree. -/
def includes (text kw : String) : Bool := includesAux text.data kw.data

/-! ## The rule tables of `builtInAIAnalyzer` -/

/-- One entry of the `categoryRules` array. -/
structure CategoryRule where
  category : String
  keywords : List String
  deriving DecidableEq, Repr

/-- The array `categoryRules`. -/
def categoryRules : List CategoryRule :=
  [ { category := "Plumbing",
      keywords := ["water", "leak", "pipe", "tap", "drain", "toilet", "flush",
                   "overflow", "sewage", "bathroom"] },
    { category := "Electrical",
      keywords := ["light", "electric", "power", "switch", "socket", "fan", "wire",
                   "short circuit", "bulb", "voltage", "current"] },
    { category := "Civil",
      keywords := ["wall", "crack", "ceiling", "floor", "roof", "door", "window",
                   "broken", "damage", "structural", "paint", "concrete"] },
    { category := "Housekeeping",
      keywords := ["dirty", "clean", "garbage", "waste", "smell", "pest", "insect",
                   "rat", "cockroach", "dust", "hygiene"] },
    { category := "IT Infrastructure",
      keywords := ["internet", "wifi", "network", "computer", "projector", "screen",
                   "printer", "server", "laptop", "connection"] },
    { category := "Furniture",
      keywords := ["chair", "table", "bench", "desk", "cupboard", "shelf", "almirah",
                   "broken furniture"] } ]

/-- The array `criticalKeywords`. -/
def criticalKeywords : List String :=
  ["fire", "emergency", "gas leak", "explosion", "flood", "electrocution",
   "dangerous", "urgent", "immediately"]

/-- The array `highKeywords`. -/
def highKeywords : List String :=
  ["severe", "major", "no water", "no power", "broken", "not working",
   "complete failure", "serious"]

/-- The array `lowKeywords`. -/
def lowKeywords : List String :=
  ["minor", "small", "slight", "little", "barely", "cosmetic"]

/-- The object `priorityScores`. -/
def priorityScores : List (String × JSValue) :=
  [("Critical", .num 90), ("High", .num 70), ("Medium", .num 50), ("Low", .num 25)]

/-- The object `categoryBonus`. -/
def categoryBonus : List (String × JSValue) :=
  [("Electrical", .num 15), ("Plumbing", .num 10), ("Civil", .num 8),
   ("Housekeeping", .num 5), ("IT Infrastructure", .num 5), ("Furniture", .num 3),
   ("Others", .num 0)]

/-- The object `departmentMap`. -/
def departmentMap : List (String × JSValue) :=
  [("Plumbing", .str "Plumbing & Sanitation Dept."),
   ("Electrical", .str "Electrical Maintenance Dept."),
   ("Civil", .str "Civil Engineering Dept."),
   ("Housekeeping", .str "Housekeeping & Sanitation"),
   ("IT Infrastructure", .str "IT Support Dept."),
   ("Furniture", .str "Furniture & Assets Dept."),
   ("Others", .str "General Maintenance Dept.")]

/-- The object `resolutionMap`. -/
def resolutionMap : List (String × JSValue) :=
  [("Critical", .str "Same day (< 4 hours)"), ("High", .str "1-2 days"),
   ("Medium", .str "3-5 days"), ("Low", .str "5-7 days")]

/-! ## Category and priority detection -/

/-- The expression `rule.keywords.filter((kw) => text.includes(kw)).length`. -/
def matchCount (text : String) (rule : CategoryRule) : Nat :=
  (rule.keywords.filter (fun kw => includes text kw)).length

/-- One iteration of the loop over `categoryRules`, on the pair
`(detectedCategory, maxMatches)`. -/
def categoryStep (text : String) (acc : String × Nat) (rule : CategoryRule) :
    String × Nat :=
  let n := matchCount text rule
  if n > acc.2 then (rule.category, n) else acc

/-- The loop over a table of rules, from a given `(detectedCategory, maxMatches)`. -/
def categoryLoop (text : String) (rules : List CategoryRule) (acc : String × Nat) :
    String × Nat :=
  rules.foldl (categoryStep text) acc

/-- The value of `detectedCategory` after the loop. -/
def detectCategory (text : String) : String :=
  (categoryLoop text categoryRules ("Others", 0)).1

/-- The `if / else if` chain that sets `priority`. -/
def detectPriority (text : String) : String :=
  if criticalKeywords.any (fun kw => includes text kw) then "Critical"
  else if highKeywords.any (fun kw => includes text kw) then "High"
  else if lowKeywords.any (fun kw => includes text kw) then "Low"
  else "Medium"

/-! ## Risk score, reasoning text and the result object -/

/-- Truthiness of the `imageUrl` argument, a string or `null` (`none`): the empty
string is falsy like `null`. -/
def imageTruthy : Option String → Bool
  | none => false
  | some s => s != ""

/-- The expression `imageUrl ? 5 : 0`. -/
def imageBonus (imageUrl : Option String) : Int :=
  if imageTruthy imageUrl then 5 else 0

/-- The second argument of `Math.min`:
`priorityScores[priority] + (categoryBonus[detectedCategory] || 0) + imageBonus`. -/
def rawRiskScore (priority detectedCategory : String) (imageUrl : Option String) :
    JSValue :=
  jsAdd
    (jsAdd (getProp priorityScores priority)
      (jsOr (getProp categoryBonus detectedCategory) (.num 0)))
    (.num (imageBonus imageUrl))

/-- Conversion of a value to the string a template literal inserts; `none` when the
text is outside the modelled fragment. An integer is written with all its decimal
digits as long as it is a safe integer, at most 2^53 - 1 in absolute value; beyond
that `Number.prototype.toString` rounds the digits and, from 10^21 on, switches to
exponent notation, which is not modelled. -/
def toJSString : JSValue → Option String
  | .undefined => some "undefined"
  | .null => some "null"
  | .str s => some s
  | .num n =>
    if -9007199254740991 ≤ n ∧ n ≤ 9007199254740991 then some (toString n) else none
  | .nan => some "NaN"
  | .other => none

/-- The object `reasoningTemplates`, for a category and the text of the risk score. -/
def reasoningTemplates (category score : String) : List (String × JSValue) :=
  [("Critical",
     .str ("This complaint has been classified as CRITICAL with a risk score of "
       ++ score ++ "/100. Immediate intervention is required as the issue poses a "
       ++ "significant safety or operational risk. The " ++ category
       ++ " department should be notified immediately and on-site inspection must "
       ++ "occur within 4 hours.")),
   ("High",
     .str ("Based on the complaint analysis, this issue is classified as HIGH "
       ++ "priority (risk score: " ++ score ++ "/100). The " ++ category
       ++ " department should address this within 1-2 business days. The described "
       ++ "problem indicates potential for escalation if not resolved promptly.")),
   ("Medium",
     .str ("This complaint has been analyzed and categorized as " ++ category
       ++ " with MEDIUM priority (risk score: " ++ score ++ "/100). Standard "
       ++ "resolution protocols apply. The assigned department should schedule "
       ++ "inspection and repair within 3-5 business days.")),
   ("Low",
     .str ("This is a LOW priority " ++ category ++ " complaint with a risk score of "
       ++ score ++ "/100. The issue is minor and does not pose immediate risk. The "
       ++ "department may schedule this during their regular maintenance cycle "
       ++ "within 5-7 days."))]

/-- The function `generateReasoning(category, priority, riskScore, text)`. -/
def generateReasoning (category priority : String) (riskScore : JSValue)
    (_text : String) : JSValue :=
  match toJSString riskScore with
  | none => .other
  | some score =>
    jsOr (getProp (reasoningTemplates category score) priority)
      (getProp (reasoningTemplates category score) "Medium")

/-- The value of `response.data`, the body of a remote response: `undefined`,
`null`, a primitive, or an object given by its own properties. -/
inductive Payload where
  | undefined
  | null
  | bool (b : Bool)
  | num (n : Int)
  | str (s : String)
  | obj (fields : List (String × JSValue))
  deriving DecidableEq, Repr

/-- The object returned by the analyzers. The field `aiAnalysisRaw` holds `null` or a
whole response body. -/
structure AnalysisResult where
  category : JSValue
  priority : JSValue
  department : JSValue
  estimatedResolution : JSValue
  reasoning : JSValue
  riskScore : JSValue
  aiAnalysisRaw : Payload
  source : JSValue
  deriving DecidableEq, Repr

/-- The function `builtInAIAnalyzer(description, imageUrl)`. -/
def builtInAIAnalyzer (description : String) (imageUrl : Option String) :
    AnalysisResult :=
  let text := toLowerCase description
  let detectedCategory := detectCategory text
  let priority := detectPriority text
  let riskScore := mathMin (.num 100) (rawRiskScore priority detectedCategory imageUrl)
  let reasoning := generateReasoning detectedCategory priority riskScore text
  { category := .str detectedCategory
    priority := .str priority
    department := getProp departmentMap detectedCategory
    estimatedResolution := getProp resolutionMap priority
    reasoning := reasoning
    riskScore := riskScore
    aiAnalysisRaw := .null
    source := .str "built-in-ai" }

/-! ## The orchestrator `analyzeComplaint` -/

/-- How the promise of `axios.post` settles: it rejects with an error (timeout,
network failure, status outside 2xx) or resolves with a response carrying `data`. -/
inductive RemoteOutcome where
  | rejected (message : String)
  | resolved (data : Payload)
  deriving DecidableEq, Repr

/-- Property read `response.data[key]`, for the six field names of the result: on
`undefined` and `null` the read throws a `TypeError`; a primitive has no own
property of these names; an object is read with `getProp`. -/
def readField : Payload → String → Except String JSValue
  | .undefined, _ => .error "TypeError: Cannot read properties of undefined"
  | .null, _ => .error "TypeError: Cannot read properties of null"
  | .obj fields, key => .ok (getProp fields key)
  | _, key => .ok (getProp [] key)

/-- The `try` block of `analyzeComplaint`: the awaited call throws when the promise
rejects; otherwise the result object is built field by field from `response.data`. -/
def tryBlock : RemoteOutcome → Except String AnalysisResult
  | .rejected message => .error message
  | .resolved data => do
    let category ← readField data "category"
    let priority ← readField data "priority"
    let department ← readField data "department"
    let estimatedResolution ← readField data "estimatedResolution"
    let reasoning ← readField data "reasoning"
    let riskScore ← readField data "riskScore"
    pure
      { category := category
        priority := priority
        department := department
        estimatedResolution := estimatedResolution
        reasoning := reasoning
        riskScore := riskScore
        aiAnalysisRaw := data
        source := .str "java-ai-service" }

/-- The function `analyzeComplaint(description, imageUrl)`, given how the remote call
settles: whatever the `try` block throws is caught, logged, and answered with the
built-in analyzer. An `error` result would be an exception reaching the caller. -/
def analyzeComplaint (remote : RemoteOutcome) (description : String)
    (imageUrl : Option String) : Except String AnalysisResult :=
  match tryBlock remote with
  | .ok result => .ok result
  | .error _ => .ok (builtInAIAnalyzer description imageUrl)

/-! ## Calls made by `analyzeComplaint` -/

/-- A call made while `analyzeComplaint` runs: the request `axios.post(url,
{ description, imageUrl }, { timeout })` or the call of `builtInAIAnalyzer`. -/
inductive Call where
  | post (description : String) (imageUrl : Option String) (timeout : Nat)
  | builtIn (description : String) (imageUrl : Option String)
  deriving DecidableEq, Repr

/-- The function `analyzeComplaint` together with the calls it makes, in order: the
one `axios.post` of the `try` block and, when that block throws, the one call of
`builtInAIAnalyzer` in the `catch` block. -/
def analyzeComplaintTraced (remote : RemoteOutcome) (description : String)
    (imageUrl : Option String) : List Call × Except String AnalysisResult :=
  match tryBlock remote with
  | .ok result => ([.post description imageUrl 50000], .ok result)
  | .error _ =>
    ([.post description imageUrl 50000, .builtIn description imageUrl],
      .ok (builtInAIAnalyzer description imageUrl))

/-! ## Seed data of `server.js` -/

/-- The fields of a seed complaint that the source labels as AI generated, with its
description. -/
structure SampleComplaint where
  description : String
  category : String
  priority : String
  department : String
  estimatedResolution : String
  riskScore : Int
  deriving DecidableEq, Repr

/-- The array `sampleComplaints`. -/
def sampleComplaints : List SampleComplaint :=
  [ { description := "Water leaking from the pipe in bathroom on 3rd floor"
      category := "Plumbing"
      priority := "High"
      department := "Plumbing & Sanitation Dept."
      estimatedResolution := "1-2 days"
      riskScore := 75 },
    { description := "Classroom lights flickering and one tube light is not working"
      category := "Electrical"
      priority := "Medium"
      department := "Electrical Maintenance Dept."
      estimatedResolution := "3-5 days"
      riskScore := 55 },
    { description := "Cracks appearing on the hostel room wall near window"
      category := "Civil"
      priority := "Medium"
      department := "Civil Engineering Dept."
      estimatedResolution := "3-5 days"
      riskScore := 58 } ]

/-- A seed complaint carries what `builtInAIAnalyzer` computes for its description
without image. -/
def sampleAgrees (c : SampleComplaint) : Bool :=
  let r := builtInAIAnalyzer c.description none
  decide (r.category = .str c.category ∧ r.priority = .str c.priority ∧
    r.department = .str c.department ∧
    r.estimatedResolution = .str c.estimatedResolution ∧
    r.riskScore = .num c.riskScore)

/-! ## Route handlers of `routes/complaints.js` and `routes/feedback.js`

The middleware `protect`, the upload middleware and the database models are not part
of the sources at hand: the requester that `protect` attaches and the outcome of each
database call are parameters of the handlers below. -/

/-- The requester `req.user`: `id` is `req.user._id.toString()`. -/
structure Requester where
  id : String
  role : String
  deriving DecidableEq, Repr

/-- An answer of a handler: the status code and the `message` field of the JSON body,
when the body has one. -/
structure Response where
  status : Nat
  message : Option String
  deriving DecidableEq, Repr

/-- A stored complaint as far as the access checks read it: `ownerId` is the string
form of the identifier of the user who owns it. -/
structure StoredComplaint where
  ownerId : String
  deriving DecidableEq, Repr

/-- The value of `description.length`: the number of UTF-16 code units. -/
def jsLength (s : String) : Nat :=
  (s.data.map (fun c => if c.toNat < 65536 then 1 else 2)).sum

/-- A JavaScript number as far as the comparisons of the handlers read it: `NaN`, a
finite value, or an infinity. -/
inductive JSNumber where
  | nan
  | finite (q : ℚ)
  | posInf
  | negInf
  deriving DecidableEq, Repr

/-- The comparison `x < k` of a number with a finite constant; it is false on
`NaN`. -/
def JSNumber.lt : JSNumber → ℚ → Bool
  | .nan, _ => false
  | .finite q, k => decide (q < k)
  | .posInf, _ => false
  | .negInf, _ => true

/-- The comparison `x > k` of a number with a finite constant; it is false on
`NaN`. -/
def JSNumber.gt : JSNumber → ℚ → Bool
  | .nan, _ => false
  | .finite q, k => decide (k < q)
  | .posInf, _ => true
  | .negInf, _ => false

/-- A field of `req.body` as the body parsers (`express.json`, `express.urlencoded`,
the upload middleware) deliver it: absent (`undefined`), `null`, a boolean, a number,
a string, an array, or another object. When a handler compares such a value with a
number, the value is converted to a number first; the conversion of strings, arrays
and objects is not computed here, the value carries its result: `asNumber` is
`Number(value)`. An array carries its length, an object the number that its `length`
property converts to (`NaN` when it has none). -/
inductive BodyValue where
  | undefined
  | null
  | bool (b : Bool)
  | num (x : JSNumber)
  | str (s : String) (asNumber : JSNumber)
  | arr (length : Nat) (asNumber : JSNumber)
  | obj (lengthAsNumber : JSNumber) (asNumber : JSNumber)
  deriving DecidableEq, Repr

/-- Truthiness, as `!value` and `value || ...` read it: `undefined`, `null`, `false`,
`0`, `NaN` and the empty string are falsy, every other value is truthy. -/
def BodyValue.truthy : BodyValue → Bool
  | .undefined => false
  | .null => false
  | .bool b => b
  | .num .nan => false
  | .num (.finite q) => q != 0
  | .num .posInf => true
  | .num .negInf => true
  | .str s _ => s != ""
  | .arr _ _ => true
  | .obj _ _ => true

/-- The number a value converts to when it is compared with a number. -/
def BodyValue.toNumber : BodyValue → JSNumber
  | .undefined => .nan
  | .null => .finite 0
  | .bool b => .finite (if b then 1 else 0)
  | .num x => x
  | .str _ asNumber => asNumber
  | .arr _ asNumber => asNumber
  | .obj _ asNumber => asNumber

/-- The number that `value.length` converts to in a comparison: the read throws on
`undefined` and `null` (`none`); a boolean or a number has no such property, and
`undefined` converts to `NaN`; a string has its number of code units, an array its
number of elements. -/
def BodyValue.lengthNumber : BodyValue → Option JSNumber
  | .undefined => none
  | .null => none
  | .bool _ => some .nan
  | .num _ => some .nan
  | .str s _ => some (.finite (jsLength s))
  | .arr length _ => some (.finite length)
  | .obj lengthAsNumber _ => some lengthAsNumber

/-- The expression `value || ""`. -/
def orEmpty (value : BodyValue) : BodyValue :=
  if value.truthy then value else .str "" (.finite 0)

/-- The function `analyzeComplaint(description, imageUrl)` on whatever value the
handler passes as description. On a string it is `analyzeComplaint` above. On any
other value the `try` block is the same, the description being posted as it is, but
in the `catch` block `description.toLowerCase()` throws inside `builtInAIAnalyzer`,
and that exception reaches the caller. -/
def analyzeComplaintBody (remote : RemoteOutcome) (description : BodyValue)
    (imageUrl : Option String) : Except String AnalysisResult :=
  match description with
  | .str s _ => analyzeComplaint remote s imageUrl
  | _ =>
    match tryBlock remote with
    | .ok result => .ok result
    | .error _ => .error "TypeError: description.toLowerCase is not a function"

/-- The parts of a `POST /api/complaints` request the handler reads: the body fields
and the uploaded file with the protocol and host that enter its URL. -/
structure ComplaintRequest where
  description : BodyValue
  location : BodyValue
  block : BodyValue
  file : Option String
  protocol : String
  host : String
  deriving DecidableEq, Repr

/-- The document handed to `Complaint.create`. -/
structure ComplaintDoc where
  userId : String
  description : BodyValue
  imageUrl : Option String
  location : BodyValue
  block : BodyValue
  category : JSValue
  priority : JSValue
  department : JSValue
  estimatedResolution : JSValue
  reasoning : JSValue
  riskScore : JSValue
  aiAnalysisRaw : Payload
  deriving DecidableEq, Repr

/-- The surroundings of one `POST /api/complaints` request: how the remote call
settles, and the error `Complaint.create` or `populate` throws, if any. -/
structure ComplaintEnv where
  remote : RemoteOutcome
  createError : Option String
  populateError : Option String
  deriving DecidableEq, Repr

/-- What one `POST /api/complaints` request does: the answer, the calls of
`analyzeComplaint` with their arguments, and the documents created. -/
structure ComplaintOutcome where
  response : Response
  analyzed : List (BodyValue × Option String)
  created : List ComplaintDoc
  deriving DecidableEq, Repr

/-- The defaults of the inner `catch` block of the handler. -/
def safeDefaults : AnalysisResult :=
  { category := .str "Others"
    priority := .str "Medium"
    department := .str "General Maintenance Dept."
    estimatedResolution := .str "3-5 days"
    reasoning := .str "AI analysis temporarily unavailable. Manual review required."
    riskScore := .num 50
    aiAnalysisRaw := .null
    source := .undefined }

/-- The handler of `POST /api/complaints`. The guard is
`!description || description.length < 10`; the read of `length` is reached on truthy
values only. -/
def postComplaint (env : ComplaintEnv) (user : Requester) (req : ComplaintRequest) :
    ComplaintOutcome :=
  let reject : ComplaintOutcome :=
    { response :=
        { status := 400, message := some "Description must be at least 10 characters long" }
      analyzed := []
      created := [] }
  if req.description.truthy = false then reject
  else
    match req.description.lengthNumber with
    | none =>
      { response :=
          { status := 500, message := some "TypeError: Cannot read properties of undefined" }
        analyzed := []
        created := [] }
    | some length =>
      if length.lt 10 = true then reject
      else
        let imageUrl : Option String :=
          match req.file with
          | some filename =>
            some (req.protocol ++ "://" ++ req.host ++ "/uploads/" ++ filename)
          | none => none
        let aiResult : AnalysisResult :=
          match analyzeComplaintBody env.remote req.description imageUrl with
          | .ok result => result
          | .error _ => safeDefaults
        let doc : ComplaintDoc :=
          { userId := user.id
            description := req.description
            imageUrl := imageUrl
            location := orEmpty req.location
            block := orEmpty req.block
            category := aiResult.category
            priority := aiResult.priority
            department := aiResult.department
            estimatedResolution := aiResult.estimatedResolution
            reasoning := aiResult.reasoning
            riskScore := aiResult.riskScore
            aiAnalysisRaw := aiResult.aiAnalysisRaw }
        match env.createError with
        | some message =>
          { response := { status := 500, message := some message }
            analyzed := [(req.description, imageUrl)]
            created := [] }
        | none =>
          match env.populateError with
          | some message =>
            { response := { status := 500, message := some message }
              analyzed := [(req.description, imageUrl)]
              created := [doc] }
          | none =>
            { response :=
                { status := 201
                  message := some "Complaint submitted and analyzed by AI successfully" }
              analyzed := [(req.description, imageUrl)]
              created := [doc] }

/-- The handler of `GET /api/complaints/user/:id`; `queryError` is the error the
database queries throw, if any. -/
def getUserComplaints (queryError : Option String) (user : Requester)
    (paramsId : String) : Response :=
  if user.role ≠ "admin" ∧ user.id ≠ paramsId then
    { status := 403, message := some "Access denied" }
  else
    match queryError with
    | some message => { status := 500, message := some message }
    | none => { status := 200, message := none }

/-- The handler of `GET /api/complaints/:id`; `lookup` is what
`Complaint.findById(...).populate(...)` yields: an error thrown, `null`, or the
complaint with its owner. -/
def getComplaintById (lookup : Except String (Option StoredComplaint))
    (user : Requester) : Response :=
  match lookup with
  | .error message => { status := 500, message := some message }
  | .ok none => { status := 404, message := some "Complaint not found" }
  | .ok (some complaint) =>
    if user.role ≠ "admin" ∧ complaint.ownerId ≠ user.id then
      { status := 403, message := some "Access denied" }
    else { status := 200, message := none }

/-- The body of a `POST /api/feedback` request. -/
structure FeedbackRequest where
  complaintId : BodyValue
  rating : BodyValue
  comment : BodyValue
  deriving DecidableEq, Repr

/-- The document handed to `Feedback.create`. -/
structure FeedbackDoc where
  complaintId : BodyValue
  userId : String
  rating : BodyValue
  comment : BodyValue
  deriving DecidableEq, Repr

/-- The surroundings of one `POST /api/feedback` request: what `Complaint.findById`
yields, whether `Feedback.findOne` finds a feedback of the requester for the
complaint, and the error `Feedback.create` throws, if any. -/
structure FeedbackEnv where
  complaint : Except String (Option StoredComplaint)
  existing : Except String Bool
  createError : Option String

/-- What one `POST /api/feedback` request does: the answer, the documents handed to
`Feedback.create`, and those among them for which the call did not throw. -/
structure FeedbackOutcome where
  response : Response
  submitted : List FeedbackDoc
  created : List FeedbackDoc
  deriving DecidableEq, Repr

/-- The handler of `POST /api/feedback`. -/
def postFeedback (env : FeedbackEnv) (user : Requester) (req : FeedbackRequest) :
    FeedbackOutcome :=
  let answer (status : Nat) (message : String) : FeedbackOutcome :=
    { response := { status := status, message := some message }
      submitted := []
      created := [] }
  if req.complaintId.truthy = false ∨ req.rating.truthy = false then
    answer 400 "Complaint ID and rating are required"
  else if req.rating.toNumber.lt 1 = true ∨ req.rating.toNumber.gt 5 = true then
    answer 400 "Rating must be between 1 and 5"
  else
    match env.complaint with
    | .error message => answer 500 message
    | .ok none => answer 404 "Complaint not found"
    | .ok (some complaint) =>
      if complaint.ownerId ≠ user.id then
        answer 403 "You can only submit feedback for your own complaints"
      else
        match env.existing with
        | .error message => answer 500 message
        | .ok true => answer 400 "Feedback already submitted for this complaint"
        | .ok false =>
          let doc : FeedbackDoc :=
            { complaintId := req.complaintId
              userId := user.id
              rating := req.rating
              comment := orEmpty req.comment }
          match env.createError with
          | some message =>
            { response := { status := 500, message := some message }
              submitted := [doc]
              created := [] }
          | none =>
            { response := { status := 201, message := none }
              submitted := [doc]
              created := [doc] }

/-- The order of the priorities as the specification words it:
Critical > High > Medium > Low. -/
def specPriorityRank : String → Nat
  | "Critical" => 3
  | "High" => 2
  | "Medium" => 1
  | _ => 0

/-! ## The tables of the specification, for comparison -/

/-- The table `basePriorityScore` as the specification words it:
Critical=90, High=70, Medium=50, Low=25. -/
def specBasePriorityScore : String → Option Int
  | "Critical" => some 90
  | "High" => some 70
  | "Medium" => some 50
  | "Low" => some 25
  | _ => none

/-- The table `categoryBonus` as the specification words it: Electrical=15,
Plumbing=10, Civil=8, Housekeeping=5, IT Infrastructure=5, Furniture=3, Others=0. -/
def specCategoryBonus : String → Option Int
  | "Electrical" => some 15
  | "Plumbing" => some 10
  | "Civil" => some 8
  | "Housekeeping" => some 5
  | "IT Infrastructure" => some 5
  | "Furniture" => some 3
  | "Others" => some 0
  | _ => none

/-- The four priority names. -/
def priorityNames : List String := ["Critical", "High", "Medium", "Low"]

/-- The seven category names. -/
def categoryNames : List String :=
  ["Plumbing", "Electrical", "Civil", "Housekeeping", "IT Infrastructure", "Furniture",
   "Others"]

/-! ## Substring search -/

/-- The search `includesAux` decides the contiguous-sublist relation. -/
theorem includesAux_iff_infix (text kw : List Char) :
    includesAux text kw = true ↔ kw <:+: text := by
  induction text with
  | nil => simp [includesAux, List.isEmpty_iff]
  | cons c cs ih =>
    simp only [includesAux, Bool.or_eq_true, ih, List.isPrefixOf_iff_prefix,
      List.infix_cons_iff]

/-- The method `includes` holds exactly of the contiguous substrings of the text. -/
theorem includes_iff_infix (text kw : String) :
    includes text kw = true ↔ kw.data <:+: text.data :=
  includesAux_iff_infix text.data kw.data

/-! ## The category loop -/

/-- The loop over an empty table leaves the pair unchanged. -/
theorem categoryLoop_nil (text : String) (acc : String × Nat) :
    categoryLoop text [] acc = acc := rfl

/-- The loop performs one step on the first rule and goes on with the rest. -/
theorem categoryLoop_cons (text : String) (a : CategoryRule) (rules : List CategoryRule)
    (acc : String × Nat) :
    categoryLoop text (a :: rules) acc
      = categoryLoop text rules (categoryStep text acc a) := rfl

/-- Outcome of the loop from any starting pair: either no rule beats the starting
count and the pair is unchanged, or the pair is that of the first rule whose
count is the largest of the table, and that count beats the starting one. -/
theorem categoryLoop_spec (text : String) (rules : List CategoryRule)
    (acc : String × Nat) :
    (categoryLoop text rules acc = acc ∧ ∀ r ∈ rules, matchCount text r ≤ acc.2) ∨
    (∃ l₁ r l₂, rules = l₁ ++ r :: l₂ ∧
      categoryLoop text rules acc = (r.category, matchCount text r) ∧
      acc.2 < matchCount text r ∧
      (∀ x ∈ l₁, matchCount text x < matchCount text r) ∧
      (∀ x ∈ l₂, matchCount text x ≤ matchCount text r)) := by
  induction rules generalizing acc with
  | nil => exact Or.inl ⟨rfl, by simp⟩
  | cons a rs ih =>
    rw [categoryLoop_cons]
    by_cases hgt : matchCount text a > acc.2
    · have hstep : categoryStep text acc a = (a.category, matchCount text a) := by
        simp [categoryStep, hgt]
      rw [hstep]
      rcases ih (a.category, matchCount text a) with ⟨heq, hle⟩ | ⟨l₁, r, l₂, hsplit, heq, hlt, h₁, h₂⟩
      · exact Or.inr ⟨[], a, rs, rfl, heq, hgt, by simp, hle⟩
      · refine Or.inr ⟨a :: l₁, r, l₂, by simp [hsplit], heq, ?_, ?_, h₂⟩
        · exact lt_trans hgt hlt
        · intro x hx
          rcases List.mem_cons.mp hx with rfl | hx
          · exact hlt
          · exact h₁ x hx
    · have hstep : categoryStep text acc a = acc := by
        simp [categoryStep, hgt]
      rw [hstep]
      rcases ih acc with ⟨heq, hle⟩ | ⟨l₁, r, l₂, hsplit, heq, hlt, h₁, h₂⟩
      · refine Or.inl ⟨heq, ?_⟩
        intro x hx
        rcases List.mem_cons.mp hx with rfl | hx
        · exact not_lt.mp hgt
        · exact hle x hx
      · refine Or.inr ⟨a :: l₁, r, l₂, by simp [hsplit], heq, hlt, ?_, h₂⟩
        intro x hx
        rcases List.mem_cons.mp hx with rfl | hx
        · exact lt_of_le_of_lt (not_lt.mp hgt) hlt
        · exact h₁ x hx

/-- When some rule of the table has a positive count, the loop started at
`("Others", 0)` ends on the first rule of largest count. -/
theorem categoryLoop_winner (text : String) (rules : List CategoryRule)
    (hpos : ∃ r ∈ rules, 0 < matchCount text r) :
    ∃ l₁ r l₂, rules = l₁ ++ r :: l₂ ∧
      categoryLoop text rules ("Others", 0) = (r.category, matchCount text r) ∧
      0 < matchCount text r ∧
      (∀ x ∈ l₁, matchCount text x < matchCount text r) ∧
      (∀ x ∈ l₂, matchCount text x ≤ matchCount text r) := by
  rcases categoryLoop_spec text rules ("Others", 0) with ⟨_, hle⟩ | h
  · obtain ⟨r, hr, hr0⟩ := hpos
    have := hle r hr
    simp at this
    omega
  · exact h

/-- The rule on which the loop ends has the largest count of the whole table. -/
theorem categoryLoop_winner_max (text : String) {rules l₁ l₂ : List CategoryRule}
    {r : CategoryRule} (hsplit : rules = l₁ ++ r :: l₂)
    (h₁ : ∀ x ∈ l₁, matchCount text x < matchCount text r)
    (h₂ : ∀ x ∈ l₂, matchCount text x ≤ matchCount text r) :
    ∀ x ∈ rules, matchCount text x ≤ matchCount text r := by
  intro x hx
  rw [hsplit, List.mem_append, List.mem_cons] at hx
  rcases hx with hx | rfl | hx
  · exact le_of_lt (h₁ x hx)
  · exact le_refl _
  · exact h₂ x hx

/-- The element right after a prefix `l₁` of a list sits at position `l₁.length`. -/
theorem getElem_append_cons_length {α : Type} (l₁ l₂ : List α) (r : α)
    (h : l₁.length < (l₁ ++ r :: l₂).length) : (l₁ ++ r :: l₂)[l₁.length] = r := by
  rw [List.getElem_append_right (le_refl _)]
  simp

/-- First-seen tie-breaking: a rule at position `i` whose count is positive, largest
in the table, and not reached by any earlier rule, is the one the loop ends on. -/
theorem categoryLoop_first_max (text : String) (rules : List CategoryRule) (i : Nat)
    (hi : i < rules.length)
    (hpos : 0 < matchCount text rules[i])
    (hmax : ∀ r ∈ rules, matchCount text r ≤ matchCount text rules[i])
    (hfirst : ∀ j (hj : j < i),
      matchCount text (rules[j]) ≠ matchCount text rules[i]) :
    (categoryLoop text rules ("Others", 0)).1 = rules[i].category := by
  obtain ⟨l₁, r, l₂, hsplit, heq, _, h₁, h₂⟩ :=
    categoryLoop_winner text rules ⟨rules[i], List.getElem_mem _, hpos⟩
  rw [heq]
  subst hsplit
  rcases Nat.lt_trichotomy i l₁.length with hlt | heq' | hgt
  · exfalso
    have hmem : (l₁ ++ r :: l₂)[i] ∈ l₁ := by
      rw [List.getElem_append_left hlt]
      exact List.getElem_mem _
    have h := h₁ _ hmem
    have h' := hmax r (by simp)
    omega
  · subst heq'
    rw [getElem_append_cons_length]
  · exfalso
    have hlen : l₁.length < (l₁ ++ r :: l₂).length := by simp
    have h := hfirst l₁.length hgt
    rw [getElem_append_cons_length l₁ l₂ r hlen] at h
    have h' := hmax r (by simp)
    have h'' := categoryLoop_winner_max text rfl h₁ h₂ _ (List.getElem_mem hi)
    omega

/-! ## Facts about the tables and the result fields -/

/-- No two rules of the table carry the same category name. -/
theorem categoryRules_category_injective :
    ∀ a ∈ categoryRules, ∀ b ∈ categoryRules, a.category = b.category → a = b := by
  decide

/-- A rule has a positive count exactly when one of its keywords occurs in the text. -/
theorem matchCount_pos_iff (text : String) (r : CategoryRule) :
    0 < matchCount text r ↔ ∃ kw ∈ r.keywords, includes text kw = true := by
  unfold matchCount
  rw [List.length_pos_iff_exists_mem]
  constructor
  · rintro ⟨kw, hkw⟩
    rw [List.mem_filter] at hkw
    exact ⟨kw, hkw.1, hkw.2⟩
  · rintro ⟨kw, hmem, hinc⟩
    exact ⟨kw, List.mem_filter.mpr ⟨hmem, hinc⟩⟩

/-- A rule none of whose keywords occurs in the text has count zero. -/
theorem matchCount_eq_zero (text : String) (r : CategoryRule)
    (h : ∀ kw ∈ r.keywords, includes text kw = false) : matchCount text r = 0 := by
  by_contra hne
  obtain ⟨kw, hmem, hinc⟩ := (matchCount_pos_iff text r).mp (Nat.pos_of_ne_zero hne)
  rw [h kw hmem] at hinc
  exact Bool.false_ne_true hinc

/-- The `category` field is the detected category of the lowercased description. -/
theorem result_category_eq (description : String) (imageUrl : Option String) :
    (builtInAIAnalyzer description imageUrl).category
      = .str (detectCategory (toLowerCase description)) := rfl

/-- The `priority` field is the detected priority of the lowercased description. -/
theorem result_priority_eq (description : String) (imageUrl : Option String) :
    (builtInAIAnalyzer description imageUrl).priority
      = .str (detectPriority (toLowerCase description)) := rfl

/-- First-seen tie-breaking on the table `categoryRules`, in index form. -/
theorem detectCategory_first_max (text : String) (i : Nat)
    (hi : i < categoryRules.length)
    (hpos : 0 < matchCount text categoryRules[i])
    (hmax : ∀ r ∈ categoryRules, matchCount text r ≤ matchCount text categoryRules[i])
    (hfirst : ∀ j (hj : j < i),
      matchCount text (categoryRules[j]) ≠ matchCount text categoryRules[i]) :
    detectCategory text = categoryRules[i].category :=
  categoryLoop_first_max text categoryRules i hi hpos hmax hfirst

/-- The four branches of the priority chain, each with the keyword facts that
select it. -/
theorem detectPriority_cases (text : String) :
    (detectPriority text = "Critical" ∧
      ∃ kw ∈ criticalKeywords, includes text kw = true) ∨
    (detectPriority text = "High" ∧
      (¬ ∃ kw ∈ criticalKeywords, includes text kw = true) ∧
      ∃ kw ∈ highKeywords, includes text kw = true) ∨
    (detectPriority text = "Low" ∧
      (¬ ∃ kw ∈ criticalKeywords, includes text kw = true) ∧
      (¬ ∃ kw ∈ highKeywords, includes text kw = true) ∧
      ∃ kw ∈ lowKeywords, includes text kw = true) ∨
    (detectPriority text = "Medium" ∧
      (¬ ∃ kw ∈ criticalKeywords, includes text kw = true) ∧
      (¬ ∃ kw ∈ highKeywords, includes text kw = true) ∧
      ¬ ∃ kw ∈ lowKeywords, includes text kw = true) := by
  unfold detectPriority
  by_cases hc : criticalKeywords.any (fun kw => includes text kw) = true
  · left
    rw [if_pos hc]
    exact ⟨rfl, by simpa [List.any_eq_true] using hc⟩
  · have hc' : ¬ ∃ kw ∈ criticalKeywords, includes text kw = true := by
      simpa [List.any_eq_true] using hc
    rw [if_neg hc]
    by_cases hh : highKeywords.any (fun kw => includes text kw) = true
    · right; left
      rw [if_pos hh]
      exact ⟨rfl, hc', by simpa [List.any_eq_true] using hh⟩
    · have hh' : ¬ ∃ kw ∈ highKeywords, includes text kw = true := by
        simpa [List.any_eq_true] using hh
      rw [if_neg hh]
      by_cases hl : lowKeywords.any (fun kw => includes text kw) = true
      · right; right; left
        rw [if_pos hl]
        exact ⟨rfl, hc', hh', by simpa [List.any_eq_true] using hl⟩
      · right; right; right
        rw [if_neg hl]
        exact ⟨rfl, hc', hh', by simpa [List.any_eq_true] using hl⟩

/-- The detected priority is one of the four priority names. -/
theorem detectPriority_mem (text : String) : detectPriority text ∈ priorityNames := by
  rcases detectPriority_cases text with h | h | h | h <;> rw [h.1] <;> decide

/-- The detected category is "Others" or the category of a rule of the table. -/
theorem detectCategory_mem (text : String) : detectCategory text ∈ categoryNames := by
  unfold detectCategory
  rcases categoryLoop_spec text categoryRules ("Others", 0) with
    ⟨heq, _⟩ | ⟨l₁, r, l₂, hsplit, heq, _, _, _⟩
  · rw [heq]
    decide
  · rw [heq]
    have hr : r ∈ categoryRules := by rw [hsplit]; simp
    have hall : ∀ x ∈ categoryRules, x.category ∈ categoryNames := by decide
    exact hall r hr

/-- The sum handed to `Math.min`, for each priority and category name: the base
score plus the category bonus plus the image bonus, with the bounds of the tables. -/
theorem rawRiskScore_table (p c : String) (hp : p ∈ priorityNames)
    (hc : c ∈ categoryNames) (imageUrl : Option String) :
    ∃ b k : Int, specBasePriorityScore p = some b ∧ specCategoryBonus c = some k ∧
      25 ≤ b ∧ b ≤ 90 ∧ 0 ≤ k ∧ k ≤ 15 ∧
      rawRiskScore p c imageUrl = .num (b + k + imageBonus imageUrl) := by
  simp only [priorityNames, categoryNames, List.mem_cons, List.mem_singleton,
    List.not_mem_nil, or_false] at hp hc
  rcases hp with rfl | rfl | rfl | rfl <;>
    rcases hc with rfl | rfl | rfl | rfl | rfl | rfl | rfl <;>
    exact ⟨_, _, rfl, rfl, by decide, by decide, by decide, by decide, rfl⟩

/-- The image bonus is 0 or 5. -/
theorem imageBonus_bounds (imageUrl : Option String) :
    0 ≤ imageBonus imageUrl ∧ imageBonus imageUrl ≤ 5 := by
  unfold imageBonus
  split <;> decide

/-- The `riskScore` field is `Math.min(100, .)` of the sum of the three scores. -/
theorem result_riskScore_eq (description : String) (imageUrl : Option String) :
    (builtInAIAnalyzer description imageUrl).riskScore
      = mathMin (.num 100)
          (rawRiskScore (detectPriority (toLowerCase description))
            (detectCategory (toLowerCase description)) imageUrl) := rfl

/-! ## Category detection -/

/-- C1: when at least one category rule has a positive keyword-match count on the
lowercased description, the returned category is that of a rule whose count is the
largest over the six rules; and of two rules with different counts, the category of
the one with strictly fewer matches is never the one returned. -/
theorem builtInAIAnalyzer_category_maximal (description : String)
    (imageUrl : Option String)
    (h : ∃ r ∈ categoryRules, 0 < matchCount (toLowerCase description) r) :
    (∃ r ∈ categoryRules,
      (builtInAIAnalyzer description imageUrl).category = .str r.category ∧
      ∀ r' ∈ categoryRules,
        matchCount (toLowerCase description) r' ≤ matchCount (toLowerCase description) r) ∧
    (∀ s ∈ categoryRules, ∀ s' ∈ categoryRules,
      matchCount (toLowerCase description) s < matchCount (toLowerCase description) s' →
      (builtInAIAnalyzer description imageUrl).category ≠ .str s.category) := by
  obtain ⟨l₁, r, l₂, hsplit, heq, _, h₁, h₂⟩ :=
    categoryLoop_winner (toLowerCase description) categoryRules h
  have hmax := categoryLoop_winner_max (toLowerCase description) hsplit h₁ h₂
  have hr : r ∈ categoryRules := by rw [hsplit]; simp
  have hcat : (builtInAIAnalyzer description imageUrl).category = .str r.category := by
    rw [result_category_eq, detectCategory, heq]
  refine ⟨⟨r, hr, hcat, hmax⟩, ?_⟩
  intro s hs s' hs' hlt hcontra
  rw [hcat] at hcontra
  have hrs : r = s :=
    categoryRules_category_injective r hr s hs (JSValue.str.inj hcontra)
  subst hrs
  exact absurd (hmax s' hs') (not_le.mpr hlt)

/-- Witness for C1: "Water pipe near the fan" matches Plumbing twice and Electrical
once. -/
theorem builtInAIAnalyzer_category_maximal_witness :
    (∃ r ∈ categoryRules, 0 < matchCount (toLowerCase "Water pipe near the fan") r) ∧
    ((∃ r ∈ categoryRules,
      (builtInAIAnalyzer "Water pipe near the fan" none).category = .str r.category ∧
      ∀ r' ∈ categoryRules,
        matchCount (toLowerCase "Water pipe near the fan") r'
          ≤ matchCount (toLowerCase "Water pipe near the fan") r) ∧
    (∀ s ∈ categoryRules, ∀ s' ∈ categoryRules,
      matchCount (toLowerCase "Water pipe near the fan") s
        < matchCount (toLowerCase "Water pipe near the fan") s' →
      (builtInAIAnalyzer "Water pipe near the fan" none).category ≠ .str s.category)) :=
  ⟨by decide,
    builtInAIAnalyzer_category_maximal "Water pipe near the fan" none (by decide)⟩

/-- C2: when several rules share the largest positive count, the returned category
is that of the earliest of them in the table order: a rule at position `i` with a
positive count that no rule exceeds and no earlier rule equals gives the category. -/
theorem builtInAIAnalyzer_category_first_on_tie (description : String)
    (imageUrl : Option String) (i : Nat) (hi : i < categoryRules.length)
    (hpos : 0 < matchCount (toLowerCase description) categoryRules[i])
    (hmax : ∀ r ∈ categoryRules,
      matchCount (toLowerCase description) r
        ≤ matchCount (toLowerCase description) categoryRules[i])
    (hfirst : ∀ j (hj : j < i),
      matchCount (toLowerCase description) (categoryRules[j])
        ≠ matchCount (toLowerCase description) categoryRules[i]) :
    (builtInAIAnalyzer description imageUrl).category
      = .str categoryRules[i].category := by
  rw [result_category_eq,
    detectCategory_first_max (toLowerCase description) i hi hpos hmax hfirst]

/-- Witness for C2: "water light" matches Plumbing once and Electrical once, and is
classified Plumbing, the first rule of the table. -/
theorem builtInAIAnalyzer_category_first_on_tie_witness :
    matchCount (toLowerCase "water light") categoryRules[0] = 1 ∧
    matchCount (toLowerCase "water light") categoryRules[1] = 1 ∧
    (builtInAIAnalyzer "water light" none).category = .str "Plumbing" :=
  ⟨by decide, by decide,
    builtInAIAnalyzer_category_first_on_tie "water light" none 0 (by decide)
      (by decide) (by decide) (by intro j hj; omega)⟩

/-- C3: a description (the empty one included) whose lowercased text contains no
category keyword and no critical, high or low keyword gets category "Others" and
priority "Medium". -/
theorem builtInAIAnalyzer_no_keyword (description : String) (imageUrl : Option String)
    (hcat : ∀ r ∈ categoryRules, ∀ kw ∈ r.keywords,
      includes (toLowerCase description) kw = false)
    (hcrit : ∀ kw ∈ criticalKeywords, includes (toLowerCase description) kw = false)
    (hhigh : ∀ kw ∈ highKeywords, includes (toLowerCase description) kw = false)
    (hlow : ∀ kw ∈ lowKeywords, includes (toLowerCase description) kw = false) :
    (builtInAIAnalyzer description imageUrl).category = .str "Others" ∧
    (builtInAIAnalyzer description imageUrl).priority = .str "Medium" := by
  constructor
  · rw [result_category_eq, detectCategory]
    rcases categoryLoop_spec (toLowerCase description) categoryRules ("Others", 0) with
      ⟨heq, _⟩ | ⟨l₁, r, l₂, hsplit, _, hlt, _, _⟩
    · rw [heq]
    · exfalso
      have hr : r ∈ categoryRules := by rw [hsplit]; simp
      have := matchCount_eq_zero (toLowerCase description) r (hcat r hr)
      simp at hlt
      omega
  · rw [result_priority_eq, detectPriority]
    have h₁ : criticalKeywords.any (fun kw => includes (toLowerCase description) kw)
        = false := List.any_eq_false.mpr (fun kw hkw => by simp [hcrit kw hkw])
    have h₂ : highKeywords.any (fun kw => includes (toLowerCase description) kw)
        = false := List.any_eq_false.mpr (fun kw hkw => by simp [hhigh kw hkw])
    have h₃ : lowKeywords.any (fun kw => includes (toLowerCase description) kw)
        = false := List.any_eq_false.mpr (fun kw hkw => by simp [hlow kw hkw])
    simp [h₁, h₂, h₃]

/-- Witness for C3: the empty description. -/
theorem builtInAIAnalyzer_no_keyword_witness :
    (∀ r ∈ categoryRules, ∀ kw ∈ r.keywords, includes (toLowerCase "") kw = false) ∧
    (builtInAIAnalyzer "" none).category = .str "Others" ∧
    (builtInAIAnalyzer "" none).priority = .str "Medium" :=
  ⟨by decide,
    builtInAIAnalyzer_no_keyword "" none (by decide) (by decide) (by decide) (by decide)⟩

/-- C4: a description whose lowercased text contains at least one keyword of the
Electrical rule and no keyword of any other category rule gets category
"Electrical". -/
theorem builtInAIAnalyzer_only_electrical (description : String)
    (imageUrl : Option String)
    (helec : ∃ r ∈ categoryRules, r.category = "Electrical" ∧
      ∃ kw ∈ r.keywords, includes (toLowerCase description) kw = true)
    (hother : ∀ r ∈ categoryRules, r.category ≠ "Electrical" →
      ∀ kw ∈ r.keywords, includes (toLowerCase description) kw = false) :
    (builtInAIAnalyzer description imageUrl).category = .str "Electrical" := by
  have hi : 1 < categoryRules.length := by decide
  have hname : categoryRules[1].category = "Electrical" := rfl
  have hmem : categoryRules[1] ∈ categoryRules := List.getElem_mem hi
  have hpos : 0 < matchCount (toLowerCase description) categoryRules[1] := by
    obtain ⟨r, hr, hrn, hkw⟩ := helec
    have : r = categoryRules[1] :=
      categoryRules_category_injective r hr _ hmem (hrn.trans hname.symm)
    rw [← this]
    exact (matchCount_pos_iff _ r).mpr hkw
  have hzero : ∀ r ∈ categoryRules, r.category ≠ "Electrical" →
      matchCount (toLowerCase description) r = 0 :=
    fun r hr hne => matchCount_eq_zero _ r (hother r hr hne)
  have hmax : ∀ r ∈ categoryRules, matchCount (toLowerCase description) r
      ≤ matchCount (toLowerCase description) categoryRules[1] := by
    intro r hr
    by_cases hne : r.category = "Electrical"
    · have : r = categoryRules[1] :=
        categoryRules_category_injective r hr _ hmem (hne.trans hname.symm)
      rw [this]
    · rw [hzero r hr hne]
      exact Nat.zero_le _
  have hfirst : ∀ j (hj : j < 1), matchCount (toLowerCase description) (categoryRules[j])
      ≠ matchCount (toLowerCase description) categoryRules[1] := by
    intro j hj
    have hj0 : j = 0 := by omega
    subst hj0
    have h0 : categoryRules[0].category ≠ "Electrical" := by
      show "Plumbing" ≠ "Electrical"
      decide
    rw [hzero categoryRules[0] (List.getElem_mem _) h0]
    omega
  rw [result_category_eq,
    detectCategory_first_max (toLowerCase description) 1 hi hpos hmax hfirst, hname]

/-- Witness for C4: "Loose WIRE behind the socket" contains the Electrical keywords
"wire" and "socket" and no keyword of another rule. -/
theorem builtInAIAnalyzer_only_electrical_witness :
    (∃ r ∈ categoryRules, r.category = "Electrical" ∧
      ∃ kw ∈ r.keywords, includes (toLowerCase "Loose WIRE behind the socket") kw = true) ∧
    (builtInAIAnalyzer "Loose WIRE behind the socket" none).category
      = .str "Electrical" :=
  ⟨by decide,
    builtInAIAnalyzer_only_electrical "Loose WIRE behind the socket" none (by decide)
      (by decide)⟩

/-! ## Priority detection -/

/-- C5: a description whose lowercased text contains at least one critical keyword
gets priority "Critical", whatever high or low keywords it also contains. -/
theorem builtInAIAnalyzer_critical_precedence (description : String)
    (imageUrl : Option String)
    (hcrit : ∃ kw ∈ criticalKeywords, includes (toLowerCase description) kw = true) :
    (builtInAIAnalyzer description imageUrl).priority = .str "Critical" := by
  rw [result_priority_eq]
  rcases detectPriority_cases (toLowerCase description) with h | h | h | h
  · rw [h.1]
  · exact absurd hcrit h.2.1
  · exact absurd hcrit h.2.1
  · exact absurd hcrit h.2.1

/-- Witness for C5: "Small FIRE, minor damage" contains the critical keyword "fire"
together with the low keywords "small" and "minor". -/
theorem builtInAIAnalyzer_critical_precedence_witness :
    (∃ kw ∈ criticalKeywords,
      includes (toLowerCase "Small FIRE, minor damage") kw = true) ∧
    (∃ kw ∈ lowKeywords,
      includes (toLowerCase "Small FIRE, minor damage") kw = true) ∧
    (builtInAIAnalyzer "Small FIRE, minor damage" none).priority = .str "Critical" :=
  ⟨by decide, by decide,
    builtInAIAnalyzer_critical_precedence "Small FIRE, minor damage" none (by decide)⟩

/-- C6: the priority is "High" exactly when no critical keyword and at least one
high keyword occurs in the lowercased text, "Low" exactly when no critical and no
high keyword but at least one low keyword occurs, and "Medium" exactly when no
critical, high or low keyword occurs. -/
theorem builtInAIAnalyzer_priority_precedence (description : String)
    (imageUrl : Option String) :
    ((builtInAIAnalyzer description imageUrl).priority = .str "High" ↔
      (¬ ∃ kw ∈ criticalKeywords, includes (toLowerCase description) kw = true) ∧
      ∃ kw ∈ highKeywords, includes (toLowerCase description) kw = true) ∧
    ((builtInAIAnalyzer description imageUrl).priority = .str "Low" ↔
      (¬ ∃ kw ∈ criticalKeywords, includes (toLowerCase description) kw = true) ∧
      (¬ ∃ kw ∈ highKeywords, includes (toLowerCase description) kw = true) ∧
      ∃ kw ∈ lowKeywords, includes (toLowerCase description) kw = true) ∧
    ((builtInAIAnalyzer description imageUrl).priority = .str "Medium" ↔
      (¬ ∃ kw ∈ criticalKeywords, includes (toLowerCase description) kw = true) ∧
      (¬ ∃ kw ∈ highKeywords, includes (toLowerCase description) kw = true) ∧
      ¬ ∃ kw ∈ lowKeywords, includes (toLowerCase description) kw = true) := by
  rw [result_priority_eq]
  have hne₁ : JSValue.str "Critical" ≠ .str "High" := by decide
  have hne₂ : JSValue.str "Critical" ≠ .str "Low" := by decide
  have hne₃ : JSValue.str "Critical" ≠ .str "Medium" := by decide
  have hne₄ : JSValue.str "High" ≠ .str "Low" := by decide
  have hne₅ : JSValue.str "High" ≠ .str "Medium" := by decide
  have hne₆ : JSValue.str "Low" ≠ .str "Medium" := by decide
  rcases detectPriority_cases (toLowerCase description) with
    ⟨hp, hc⟩ | ⟨hp, hc, hh⟩ | ⟨hp, hc, hh, hl⟩ | ⟨hp, hc, hh, hl⟩ <;> rw [hp]
  · exact ⟨⟨fun h => absurd h hne₁, fun h => absurd hc h.1⟩,
      ⟨fun h => absurd h hne₂, fun h => absurd hc h.1⟩,
      ⟨fun h => absurd h hne₃, fun h => absurd hc h.1⟩⟩
  · exact ⟨⟨fun _ => ⟨hc, hh⟩, fun _ => rfl⟩,
      ⟨fun h => absurd h hne₄, fun h => absurd hh h.2.1⟩,
      ⟨fun h => absurd h hne₅, fun h => absurd hh h.2.1⟩⟩
  · exact ⟨⟨fun h => absurd h hne₄.symm, fun h => absurd h.2 hh⟩,
      ⟨fun _ => ⟨hc, hh, hl⟩, fun _ => rfl⟩,
      ⟨fun h => absurd h hne₆, fun h => absurd hl h.2.2⟩⟩
  · exact ⟨⟨fun h => absurd h hne₅.symm, fun h => absurd h.2 hh⟩,
      ⟨fun h => absurd h hne₆.symm, fun h => absurd h.2.2 hl⟩,
      ⟨fun _ => ⟨hc, hh, hl⟩, fun _ => rfl⟩⟩

/-! ## Risk score -/

/-- C7: the risk score of a result equals `min(100, base + bonus + imageBonus)`, with
`base` read in the specification table at the priority of the same result, `bonus`
read in the specification table at its category, and `imageBonus` equal to 5 when an
image reference is given and 0 otherwise. -/
theorem builtInAIAnalyzer_riskScore_formula (description : String)
    (imageUrl : Option String) :
    ∃ (p c : String) (b k : Int),
      (builtInAIAnalyzer description imageUrl).priority = .str p ∧
      (builtInAIAnalyzer description imageUrl).category = .str c ∧
      specBasePriorityScore p = some b ∧ specCategoryBonus c = some k ∧
      (builtInAIAnalyzer description imageUrl).riskScore
        = .num (min 100 (b + k + (if imageTruthy imageUrl = true then 5 else 0))) := by
  obtain ⟨b, k, hb, hk, _, _, _, _, hraw⟩ :=
    rawRiskScore_table (detectPriority (toLowerCase description))
      (detectCategory (toLowerCase description)) (detectPriority_mem _)
      (detectCategory_mem _) imageUrl
  refine ⟨_, _, b, k, rfl, rfl, hb, hk, ?_⟩
  rw [result_riskScore_eq, hraw]
  rfl

/-- C8: the risk score is an integer between 25 and 100: the sum handed to
`Math.min` is an integer of at least 25, so that no floor has to be enforced, while
the ceiling of 100 is needed, the sum reaching 110 on some input. -/
theorem builtInAIAnalyzer_riskScore_bounds :
    (∀ (description : String) (imageUrl : Option String), ∃ raw n : Int,
      rawRiskScore (detectPriority (toLowerCase description))
        (detectCategory (toLowerCase description)) imageUrl = .num raw ∧
      25 ≤ raw ∧
      (builtInAIAnalyzer description imageUrl).riskScore = .num n ∧
      n = min 100 raw ∧ 25 ≤ n ∧ n ≤ 100) ∧
    (∃ (description : String) (imageUrl : Option String),
      rawRiskScore (detectPriority (toLowerCase description))
        (detectCategory (toLowerCase description)) imageUrl = .num 110 ∧
      (builtInAIAnalyzer description imageUrl).riskScore = .num 100) := by
  constructor
  · intro description imageUrl
    obtain ⟨b, k, _, _, hb, _, hk, _, hraw⟩ :=
      rawRiskScore_table (detectPriority (toLowerCase description))
        (detectCategory (toLowerCase description)) (detectPriority_mem _)
        (detectCategory_mem _) imageUrl
    have him := imageBonus_bounds imageUrl
    refine ⟨b + k + imageBonus imageUrl, min 100 (b + k + imageBonus imageUrl), hraw,
      by omega, ?_, rfl, by omega, by omega⟩
    rw [result_riskScore_eq, hraw]
    rfl
  · exact ⟨"fire in the wire", some "/uploads/photo.png", by decide, by decide⟩

/-- C9: a description classified as category Electrical with priority Critical and
analysed with an image reference has risk score 100; one classified as category
Furniture with priority Low and analysed without an image has risk score 28. -/
theorem builtInAIAnalyzer_riskScore_examples (description : String)
    (imageUrl : Option String) :
    ((builtInAIAnalyzer description imageUrl).category = .str "Electrical" →
      (builtInAIAnalyzer description imageUrl).priority = .str "Critical" →
      imageTruthy imageUrl = true →
      (builtInAIAnalyzer description imageUrl).riskScore = .num 100) ∧
    ((builtInAIAnalyzer description imageUrl).category = .str "Furniture" →
      (builtInAIAnalyzer description imageUrl).priority = .str "Low" →
      imageTruthy imageUrl = false →
      (builtInAIAnalyzer description imageUrl).riskScore = .num 28) := by
  constructor
  · intro hc hp hi
    rw [result_category_eq] at hc
    rw [result_priority_eq] at hp
    rw [result_riskScore_eq, JSValue.str.inj hc, JSValue.str.inj hp]
    simp only [rawRiskScore, imageBonus, hi]
    decide
  · intro hc hp hi
    rw [result_category_eq] at hc
    rw [result_priority_eq] at hp
    rw [result_riskScore_eq, JSValue.str.inj hc, JSValue.str.inj hp]
    simp only [rawRiskScore, imageBonus, hi]
    decide

/-- Witness for C9: "fire in the wire" with an image URL scores 100 and
"minor chair" with `imageUrl` null scores 28. -/
theorem builtInAIAnalyzer_riskScore_examples_witness :
    ((builtInAIAnalyzer "fire in the wire" (some "http://host/uploads/a.png")).category
        = .str "Electrical" ∧
      (builtInAIAnalyzer "fire in the wire" (some "http://host/uploads/a.png")).priority
        = .str "Critical" ∧
      (builtInAIAnalyzer "fire in the wire" (some "http://host/uploads/a.png")).riskScore
        = .num 100) ∧
    ((builtInAIAnalyzer "minor chair" none).category = .str "Furniture" ∧
      (builtInAIAnalyzer "minor chair" none).priority = .str "Low" ∧
      (builtInAIAnalyzer "minor chair" none).riskScore = .num 28) :=
  ⟨⟨by decide, by decide,
      (builtInAIAnalyzer_riskScore_examples "fire in the wire"
        (some "http://host/uploads/a.png")).1 (by decide) (by decide) (by decide)⟩,
    ⟨by decide, by decide,
      (builtInAIAnalyzer_riskScore_examples "minor chair" none).2 (by decide)
        (by decide) (by decide)⟩⟩

/-! ## Department and estimated resolution -/

/-- C10: the department of a result is the entry of the fixed table for the category
of the same result, its estimated resolution the entry of the fixed table for its
priority, and neither field is `undefined`. -/
theorem builtInAIAnalyzer_department_resolution (description : String)
    (imageUrl : Option String) :
    (((builtInAIAnalyzer description imageUrl).category,
        (builtInAIAnalyzer description imageUrl).department) ∈
      [(JSValue.str "Plumbing", JSValue.str "Plumbing & Sanitation Dept."),
       (.str "Electrical", .str "Electrical Maintenance Dept."),
       (.str "Civil", .str "Civil Engineering Dept."),
       (.str "Housekeeping", .str "Housekeeping & Sanitation"),
       (.str "IT Infrastructure", .str "IT Support Dept."),
       (.str "Furniture", .str "Furniture & Assets Dept."),
       (.str "Others", .str "General Maintenance Dept.")]) ∧
    (((builtInAIAnalyzer description imageUrl).priority,
        (builtInAIAnalyzer description imageUrl).estimatedResolution) ∈
      [(JSValue.str "Critical", JSValue.str "Same day (< 4 hours)"),
       (.str "High", .str "1-2 days"),
       (.str "Medium", .str "3-5 days"),
       (.str "Low", .str "5-7 days")]) ∧
    (builtInAIAnalyzer description imageUrl).department ≠ .undefined ∧
    (builtInAIAnalyzer description imageUrl).estimatedResolution ≠ .undefined := by
  have hdep : ∀ c ∈ categoryNames,
      ((JSValue.str c, getProp departmentMap c) ∈
        [(JSValue.str "Plumbing", JSValue.str "Plumbing & Sanitation Dept."),
         (.str "Electrical", .str "Electrical Maintenance Dept."),
         (.str "Civil", .str "Civil Engineering Dept."),
         (.str "Housekeeping", .str "Housekeeping & Sanitation"),
         (.str "IT Infrastructure", .str "IT Support Dept."),
         (.str "Furniture", .str "Furniture & Assets Dept."),
         (.str "Others", .str "General Maintenance Dept.")]) ∧
      getProp departmentMap c ≠ .undefined := by decide
  have hres : ∀ p ∈ priorityNames,
      ((JSValue.str p, getProp resolutionMap p) ∈
        [(JSValue.str "Critical", JSValue.str "Same day (< 4 hours)"),
         (.str "High", .str "1-2 days"),
         (.str "Medium", .str "3-5 days"),
         (.str "Low", .str "5-7 days")]) ∧
      getProp resolutionMap p ≠ .undefined := by decide
  have h₁ := hdep _ (detectCategory_mem (toLowerCase description))
  have h₂ := hres _ (detectPriority_mem (toLowerCase description))
  exact ⟨h₁.1, h₂.1, h₁.2, h₂.2⟩

/-! ## Further facts about the result fields -/

/-- The `department` field is the entry of `departmentMap` at the detected category. -/
theorem result_department_eq (description : String) (imageUrl : Option String) :
    (builtInAIAnalyzer description imageUrl).department
      = getProp departmentMap (detectCategory (toLowerCase description)) := rfl

/-- The `estimatedResolution` field is the entry of `resolutionMap` at the detected
priority. -/
theorem result_estimatedResolution_eq (description : String)
    (imageUrl : Option String) :
    (builtInAIAnalyzer description imageUrl).estimatedResolution
      = getProp resolutionMap (detectPriority (toLowerCase description)) := rfl

/-- The `reasoning` field is the text generated from the detected category, the
detected priority and the risk score of the same result. -/
theorem result_reasoning_eq (description : String) (imageUrl : Option String) :
    (builtInAIAnalyzer description imageUrl).reasoning
      = generateReasoning (detectCategory (toLowerCase description))
          (detectPriority (toLowerCase description))
          (builtInAIAnalyzer description imageUrl).riskScore
          (toLowerCase description) := rfl

/-- On the seven category names the department table takes pairwise distinct
values. -/
theorem departmentMap_injective :
    ∀ c ∈ categoryNames, ∀ c' ∈ categoryNames,
      getProp departmentMap c = getProp departmentMap c' → c = c' := by
  decide

/-- On the four priority names the resolution table takes pairwise distinct values. -/
theorem resolutionMap_injective :
    ∀ p ∈ priorityNames, ∀ p' ∈ priorityNames,
      getProp resolutionMap p = getProp resolutionMap p' → p = p' := by
  decide

/-- The risk score of the built-in analyzer is an integer between 25 and 100. -/
theorem riskScore_local_bounds (description : String) (imageUrl : Option String) :
    ∃ n : Int, (builtInAIAnalyzer description imageUrl).riskScore = .num n ∧
      25 ≤ n ∧ n ≤ 100 := by
  obtain ⟨b, k, _, _, hb, _, hk, _, hraw⟩ :=
    rawRiskScore_table (detectPriority (toLowerCase description))
      (detectCategory (toLowerCase description)) (detectPriority_mem _)
      (detectCategory_mem _) imageUrl
  have him := imageBonus_bounds imageUrl
  refine ⟨min 100 (b + k + imageBonus imageUrl), ?_, by omega, by omega⟩
  rw [result_riskScore_eq, hraw]
  rfl

/-! ## The two paths of `analyzeComplaint` -/

/-- A rejected remote call is answered by the built-in analyzer. -/
theorem analyzeComplaint_rejected (message description : String)
    (imageUrl : Option String) :
    analyzeComplaint (.rejected message) description imageUrl
      = .ok (builtInAIAnalyzer description imageUrl) := rfl

/-- A response whose body is `undefined` or `null` is answered by the built-in
analyzer: the first property read throws inside the `try` block. -/
theorem analyzeComplaint_nullish (data : Payload) (description : String)
    (imageUrl : Option String) (h : data = .undefined ∨ data = .null) :
    analyzeComplaint (.resolved data) description imageUrl
      = .ok (builtInAIAnalyzer description imageUrl) := by
  rcases h with rfl | rfl <;> rfl

/-- A response whose body is neither `undefined` nor `null` is turned into a result
whose six fields are the property reads on the body, without any check. -/
theorem analyzeComplaint_passthrough (data : Payload) (description : String)
    (imageUrl : Option String) (h₁ : data ≠ .undefined) (h₂ : data ≠ .null) :
    ∃ r, analyzeComplaint (.resolved data) description imageUrl = .ok r ∧
      r.source = .str "java-ai-service" ∧ r.aiAnalysisRaw = data ∧
      readField data "category" = .ok r.category ∧
      readField data "priority" = .ok r.priority ∧
      readField data "department" = .ok r.department ∧
      readField data "estimatedResolution" = .ok r.estimatedResolution ∧
      readField data "reasoning" = .ok r.reasoning ∧
      readField data "riskScore" = .ok r.riskScore := by
  cases data with
  | undefined => exact absurd rfl h₁
  | null => exact absurd rfl h₂
  | bool b => exact ⟨_, rfl, rfl, rfl, rfl, rfl, rfl, rfl, rfl, rfl⟩
  | num n => exact ⟨_, rfl, rfl, rfl, rfl, rfl, rfl, rfl, rfl, rfl⟩
  | str s => exact ⟨_, rfl, rfl, rfl, rfl, rfl, rfl, rfl, rfl, rfl⟩
  | obj fields => exact ⟨_, rfl, rfl, rfl, rfl, rfl, rfl, rfl, rfl, rfl⟩

/-- Every way the remote call settles leads to one of the two paths. -/
theorem analyzeComplaint_cases (remote : RemoteOutcome) (description : String)
    (imageUrl : Option String) :
    analyzeComplaint remote description imageUrl
        = .ok (builtInAIAnalyzer description imageUrl) ∨
    ∃ data r, remote = .resolved data ∧ data ≠ .undefined ∧ data ≠ .null ∧
      analyzeComplaint remote description imageUrl = .ok r ∧
      r.source = .str "java-ai-service" ∧ r.aiAnalysisRaw = data ∧
      readField data "riskScore" = .ok r.riskScore := by
  cases remote with
  | rejected message => exact Or.inl rfl
  | resolved data =>
    by_cases h₁ : data = .undefined
    · exact Or.inl (analyzeComplaint_nullish data _ _ (Or.inl h₁))
    · by_cases h₂ : data = .null
      · exact Or.inl (analyzeComplaint_nullish data _ _ (Or.inr h₂))
      · obtain ⟨r, hr, hs, hraw, _, _, _, _, _, hrisk⟩ :=
          analyzeComplaint_passthrough data description imageUrl h₁ h₂
        exact Or.inr ⟨data, r, rfl, h₁, h₂, hr, hs, hraw, hrisk⟩

/-! ## Department and resolution tables are one-to-one -/

/-- C11: two results of the built-in analyzer have the same department exactly when
they have the same category, and the same estimated resolution exactly when they
have the same priority. -/
theorem builtInAIAnalyzer_tables_one_to_one (d₁ d₂ : String) (i₁ i₂ : Option String) :
    ((builtInAIAnalyzer d₁ i₁).department = (builtInAIAnalyzer d₂ i₂).department ↔
      (builtInAIAnalyzer d₁ i₁).category = (builtInAIAnalyzer d₂ i₂).category) ∧
    ((builtInAIAnalyzer d₁ i₁).estimatedResolution
        = (builtInAIAnalyzer d₂ i₂).estimatedResolution ↔
      (builtInAIAnalyzer d₁ i₁).priority = (builtInAIAnalyzer d₂ i₂).priority) := by
  simp only [result_department_eq, result_estimatedResolution_eq, result_category_eq,
    result_priority_eq]
  constructor
  · constructor
    · intro h
      rw [departmentMap_injective _ (detectCategory_mem _) _ (detectCategory_mem _) h]
    · intro h
      rw [JSValue.str.inj h]
  · constructor
    · intro h
      rw [resolutionMap_injective _ (detectPriority_mem _) _ (detectPriority_mem _) h]
    · intro h
      rw [JSValue.str.inj h]

/-! ## Remote failure and remote success -/

/-- C12: when the remote call fails, `analyzeComplaint` returns exactly the object the
built-in analyzer produces for the same description and image reference, whose
source is "built-in-ai" and whose raw payload is `null`. -/
theorem analyzeComplaint_remote_failure (message description : String)
    (imageUrl : Option String) :
    analyzeComplaint (.rejected message) description imageUrl
      = .ok (builtInAIAnalyzer description imageUrl) ∧
    (builtInAIAnalyzer description imageUrl).source = .str "built-in-ai" ∧
    (builtInAIAnalyzer description imageUrl).aiAnalysisRaw = .null :=
  ⟨rfl, rfl, rfl⟩

/-- C13: when the remote call succeeds with a body that has the six fields, the
strings as strings and the risk score as a number, the result has source
"java-ai-service", its six fields are those of the body, its raw payload is the
whole body, and nothing of the description or the image reference enters it. -/
theorem analyzeComplaint_remote_success (fields : List (String × JSValue))
    (category priority department estimatedResolution reasoning : String)
    (riskScore : Int) (description : String) (imageUrl : Option String)
    (hc : fields.lookup "category" = some (.str category))
    (hp : fields.lookup "priority" = some (.str priority))
    (hd : fields.lookup "department" = some (.str department))
    (he : fields.lookup "estimatedResolution" = some (.str estimatedResolution))
    (hr : fields.lookup "reasoning" = some (.str reasoning))
    (hs : fields.lookup "riskScore" = some (.num riskScore)) :
    analyzeComplaint (.resolved (.obj fields)) description imageUrl
      = .ok
          { category := .str category
            priority := .str priority
            department := .str department
            estimatedResolution := .str estimatedResolution
            reasoning := .str reasoning
            riskScore := .num riskScore
            aiAnalysisRaw := .obj fields
            source := .str "java-ai-service" } := by
  have key : ∀ (k : String) (v : JSValue), fields.lookup k = some v →
      getProp fields k = v := by
    intro k v h
    simp [getProp, h]
  show Except.ok _ = Except.ok _
  rw [key _ _ hc, key _ _ hp, key _ _ hd, key _ _ he, key _ _ hr, key _ _ hs]

/-- Witness for C13: a well-formed body, returned as it is although the description
alone would be classified Electrical and Critical. -/
theorem analyzeComplaint_remote_success_witness :
    analyzeComplaint
        (.resolved (.obj
          [("category", .str "Plumbing"), ("priority", .str "High"),
           ("department", .str "Plumbing & Sanitation Dept."),
           ("estimatedResolution", .str "1-2 days"),
           ("reasoning", .str "Leak reported near the main valve."),
           ("riskScore", .num 80)]))
        "fire in the wire" none
      = .ok
          { category := .str "Plumbing"
            priority := .str "High"
            department := .str "Plumbing & Sanitation Dept."
            estimatedResolution := .str "1-2 days"
            reasoning := .str "Leak reported near the main valve."
            riskScore := .num 80
            aiAnalysisRaw := .obj
              [("category", .str "Plumbing"), ("priority", .str "High"),
               ("department", .str "Plumbing & Sanitation Dept."),
               ("estimatedResolution", .str "1-2 days"),
               ("reasoning", .str "Leak reported near the main valve."),
               ("riskScore", .num 80)]
            source := .str "java-ai-service" } :=
  analyzeComplaint_remote_success _ "Plumbing" "High" "Plumbing & Sanitation Dept."
    "1-2 days" "Leak reported near the main valve." 80 "fire in the wire" none
    (by decide) (by decide) (by decide) (by decide) (by decide) (by decide)

/-! ## Malformed responses -/

/-- C14, as stated, fails: a response whose body has only a `category`, and that a
number, is not treated as a failure. The result is built from the body, with source
"java-ai-service" and the missing fields `undefined`, and differs from the result of
the built-in analyzer. -/
theorem analyzeComplaint_malformed_not_fallback :
    analyzeComplaint (.resolved (.obj [("category", .num 7)])) "fire in the wire" none
      = .ok
          { category := .num 7
            priority := .undefined
            department := .undefined
            estimatedResolution := .undefined
            reasoning := .undefined
            riskScore := .undefined
            aiAnalysisRaw := .obj [("category", .num 7)]
            source := .str "java-ai-service" } ∧
    analyzeComplaint (.resolved (.obj [("category", .num 7)])) "fire in the wire" none
      ≠ .ok (builtInAIAnalyzer "fire in the wire" none) ∧
    (builtInAIAnalyzer "fire in the wire" none).source = .str "built-in-ai" := by
  refine ⟨rfl, ?_, rfl⟩
  intro h
  have hsrc := congrArg (fun e => e.toOption.map AnalysisResult.source) h
  revert hsrc
  decide

/-- C14, amended: a successful response is not validated. When its body is
`undefined` or `null` the property read throws and the built-in analyzer answers;
for every other body, whatever fields it lacks and whatever their types, the result
has source "java-ai-service", the body as raw payload, and as each of the six fields
what reading that property of the body yields. -/
theorem analyzeComplaint_no_validation (data : Payload) (description : String)
    (imageUrl : Option String) :
    ((data = .undefined ∨ data = .null) ∧
      analyzeComplaint (.resolved data) description imageUrl
        = .ok (builtInAIAnalyzer description imageUrl)) ∨
    (data ≠ .undefined ∧ data ≠ .null ∧
      ∃ r, analyzeComplaint (.resolved data) description imageUrl = .ok r ∧
        r.source = .str "java-ai-service" ∧ r.aiAnalysisRaw = data ∧
        readField data "category" = .ok r.category ∧
        readField data "priority" = .ok r.priority ∧
        readField data "department" = .ok r.department ∧
        readField data "estimatedResolution" = .ok r.estimatedResolution ∧
        readField data "reasoning" = .ok r.reasoning ∧
        readField data "riskScore" = .ok r.riskScore) := by
  by_cases h₁ : data = .undefined
  · exact Or.inl ⟨Or.inl h₁, analyzeComplaint_nullish data _ _ (Or.inl h₁)⟩
  · by_cases h₂ : data = .null
    · exact Or.inl ⟨Or.inr h₂, analyzeComplaint_nullish data _ _ (Or.inr h₂)⟩
    · exact Or.inr ⟨h₁, h₂, analyzeComplaint_passthrough data description imageUrl h₁ h₂⟩

/-! ## Totality and provenance -/

/-- C15: for every description, every image reference and every way the remote call
settles, `analyzeComplaint` completes with a result object; no exception reaches the
caller. -/
theorem analyzeComplaint_total (remote : RemoteOutcome) (description : String)
    (imageUrl : Option String) :
    ∃ r, analyzeComplaint remote description imageUrl = .ok r := by
  rcases analyzeComplaint_cases remote description imageUrl with h | ⟨_, r, _, _, _, h, _⟩
  · exact ⟨_, h⟩
  · exact ⟨r, h⟩

/-- C16: in every result of `analyzeComplaint` the raw payload is other than `null`
exactly when the source is "java-ai-service", and `null` exactly when the source is
"built-in-ai"; a response with body `null` or `undefined` ends in the built-in
analyzer, so that the raw payload is never `undefined` either. -/
theorem analyzeComplaint_raw_iff_remote (remote : RemoteOutcome) (description : String)
    (imageUrl : Option String) :
    ∃ r, analyzeComplaint remote description imageUrl = .ok r ∧
      (r.aiAnalysisRaw ≠ .null ↔ r.source = .str "java-ai-service") ∧
      (r.aiAnalysisRaw = .null ↔ r.source = .str "built-in-ai") ∧
      r.aiAnalysisRaw ≠ .undefined := by
  have hne : JSValue.str "built-in-ai" ≠ .str "java-ai-service" := by decide
  rcases analyzeComplaint_cases remote description imageUrl with
    h | ⟨data, r, _, h₁, h₂, h, hs, hraw, _⟩
  · refine ⟨_, h, ?_, ?_, ?_⟩
    · exact ⟨fun hn => absurd rfl hn, fun hj => absurd hj hne⟩
    · exact ⟨fun _ => rfl, fun _ => rfl⟩
    · exact fun hu => Payload.noConfusion hu
  · refine ⟨r, h, ?_, ?_, ?_⟩
    · rw [hraw, hs]
      exact ⟨fun _ => rfl, fun _ => h₂⟩
    · rw [hraw, hs]
      exact ⟨fun hn => absurd hn h₂, fun hj => absurd hj.symm hne⟩
    · rw [hraw]
      exact h₁

/-! ## Risk score of either path -/

/-- C17, as stated, fails: a response whose body carries `riskScore: 250` yields a
result with risk score 250, and one whose body has no `riskScore` yields a result
whose risk score is `undefined`. -/
theorem analyzeComplaint_riskScore_not_clamped :
    (∃ r, analyzeComplaint
        (.resolved (.obj
          [("category", .str "Electrical"), ("priority", .str "Critical"),
           ("department", .str "Electrical Maintenance Dept."),
           ("estimatedResolution", .str "Same day (< 4 hours)"),
           ("reasoning", .str "Exposed live wire."), ("riskScore", .num 250)]))
        "fire in the wire" none = .ok r ∧
      r.riskScore = .num 250 ∧ ¬ ((250 : Int) ≤ 100)) ∧
    (∃ r, analyzeComplaint (.resolved (.obj [("category", .str "Electrical")]))
        "fire in the wire" none = .ok r ∧
      r.riskScore = .undefined) :=
  ⟨⟨_, rfl, rfl, by decide⟩, ⟨_, rfl, rfl⟩⟩

/-- C17, amended: every result of the local path has an integer risk score between
25 and 100; a result of the remote path carries, unchanged and unclamped, what
reading `riskScore` on the response body yields. -/
theorem analyzeComplaint_riskScore_by_path (remote : RemoteOutcome)
    (description : String) (imageUrl : Option String) :
    ∃ r, analyzeComplaint remote description imageUrl = .ok r ∧
      ((r.source = .str "built-in-ai" ∧
          ∃ n : Int, r.riskScore = .num n ∧ 25 ≤ n ∧ n ≤ 100) ∨
       (r.source = .str "java-ai-service" ∧
          ∃ data, remote = .resolved data ∧
            readField data "riskScore" = .ok r.riskScore)) := by
  rcases analyzeComplaint_cases remote description imageUrl with
    h | ⟨data, r, hrem, _, _, h, hs, _, hrisk⟩
  · exact ⟨_, h, Or.inl ⟨rfl, riskScore_local_bounds description imageUrl⟩⟩
  · exact ⟨r, h, Or.inr ⟨hs, data, hrem, hrisk⟩⟩

/-! ## Dependence on the image reference -/

/-- The result depends on the image reference through its truthiness only. -/
theorem builtInAIAnalyzer_congr_image (description : String) (i₁ i₂ : Option String)
    (h : imageTruthy i₁ = imageTruthy i₂) :
    builtInAIAnalyzer description i₁ = builtInAIAnalyzer description i₂ := by
  have hb : imageBonus i₁ = imageBonus i₂ := by
    unfold imageBonus
    rw [h]
  simp only [builtInAIAnalyzer, rawRiskScore, hb]

/-- The empty string is falsy: it gives the result of `null`. The handler never passes
it, see `uploadUrl_ne_empty`. -/
theorem builtInAIAnalyzer_empty_reference (description : String) :
    builtInAIAnalyzer description (some "") = builtInAIAnalyzer description none := by
  apply builtInAIAnalyzer_congr_image
  decide

/-- The URL the handler builds for an uploaded file is not the empty string. -/
theorem uploadUrl_ne_empty (protocol host filename : String) :
    protocol ++ "://" ++ host ++ "/uploads/" ++ filename ≠ "" := by
  intro h
  have hlen := congrArg String.length h
  simp only [String.length_append] at hlen
  have h3 : "://".length = 3 := by decide
  have h0 : "".length = 0 := by decide
  rw [h3, h0] at hlen
  omega

/-- Every image reference that the handler of `POST /api/complaints` passes to
`analyzeComplaint` is `null` or a non-empty string. -/
theorem postComplaint_reference (env : ComplaintEnv) (user : Requester)
    (req : ComplaintRequest) (call : BodyValue × Option String)
    (hcall : call ∈ (postComplaint env user req).analyzed) :
    call.2 = none ∨ ∃ url, call.2 = some url ∧ url ≠ "" := by
  obtain ⟨description, location, block, file, protocol, host⟩ := req
  obtain ⟨remote, createError, populateError⟩ := env
  by_cases ht : description.truthy = false
  · simp [postComplaint, ht] at hcall
  · cases hl : description.lengthNumber with
    | none => simp [postComplaint, ht, hl] at hcall
    | some length =>
      by_cases hlt : length.lt 10 = true
      · simp [postComplaint, ht, hl, hlt] at hcall
      · cases file with
        | none =>
          have hmem : call = (description, none) := by
            cases createError <;> cases populateError <;>
              simpa [postComplaint, ht, hl, hlt] using hcall
          rw [hmem]
          exact Or.inl rfl
        | some filename =>
          have hmem : call
              = (description, some (protocol ++ "://" ++ host ++ "/uploads/" ++ filename)) := by
            cases createError <;> cases populateError <;>
              simpa [postComplaint, ht, hl, hlt] using hcall
          rw [hmem]
          exact Or.inr ⟨_, rfl, uploadUrl_ne_empty protocol host filename⟩

/-- C18: the built-in analyzer depends on the image reference only through whether
one is present. The handler of `POST /api/complaints`, the one caller of
`analyzeComplaint`, passes `null` or the URL of the uploaded file, a non-empty
string. Any two such references give identical results, and the sum of the scores is
the sum without image plus 5 exactly when such a reference is given, not when it is
`null`. -/
theorem builtInAIAnalyzer_image_dependence (description : String) :
    (∀ (env : ComplaintEnv) (user : Requester) (req : ComplaintRequest)
        (call : BodyValue × Option String),
      call ∈ (postComplaint env user req).analyzed →
      call.2 = none ∨ ∃ url, call.2 = some url ∧ url ≠ "") ∧
    (∀ s₁ s₂ : String, s₁ ≠ "" → s₂ ≠ "" →
      builtInAIAnalyzer description (some s₁) = builtInAIAnalyzer description (some s₂)) ∧
    (∃ raw : Int,
      rawRiskScore (detectPriority (toLowerCase description))
          (detectCategory (toLowerCase description)) none = .num raw ∧
      ∀ url : String, url ≠ "" →
        rawRiskScore (detectPriority (toLowerCase description))
            (detectCategory (toLowerCase description)) (some url) = .num (raw + 5)) := by
  refine ⟨postComplaint_reference, ?_, ?_⟩
  · intro s₁ s₂ h₁ h₂
    apply builtInAIAnalyzer_congr_image
    show (s₁ != "") = (s₂ != "")
    rw [bne_iff_ne.mpr h₁, bne_iff_ne.mpr h₂]
  · obtain ⟨b, k, hb, hk, _, _, _, _, hnone⟩ :=
      rawRiskScore_table (detectPriority (toLowerCase description))
        (detectCategory (toLowerCase description)) (detectPriority_mem _)
        (detectCategory_mem _) none
    refine ⟨b + k, ?_, ?_⟩
    · rw [hnone]
      simp [imageBonus, imageTruthy]
    · intro url hurl
      obtain ⟨b', k', hb', hk', _, _, _, _, hraw⟩ :=
        rawRiskScore_table (detectPriority (toLowerCase description))
          (detectCategory (toLowerCase description)) (detectPriority_mem _)
          (detectCategory_mem _) (some url)
      have hbb : b' = b := Option.some.inj (hb'.symm.trans hb)
      have hkk : k' = k := Option.some.inj (hk'.symm.trans hk)
      rw [hraw, hbb, hkk]
      simp [imageBonus, imageTruthy, hurl]

/-- Witness for C18: two different non-empty references give the same result. -/
theorem builtInAIAnalyzer_image_dependence_witness :
    builtInAIAnalyzer "The fan is not working" (some "http://host/uploads/a.png")
      = builtInAIAnalyzer "The fan is not working" (some "photo.png") :=
  (builtInAIAnalyzer_image_dependence "The fan is not working").2.1 _ _
    (by decide) (by decide)

/-! ## Reasoning text -/

/-- A string whose first part has characters has characters. -/
theorem data_append_ne_nil (a b : String) (h : a.data ≠ []) : (a ++ b).data ≠ [] := by
  simp [String.data_append, h]

/-- A string with characters is not the empty string. -/
theorem ne_empty_of_data_ne_nil (s : String) (h : s.data ≠ []) : s ≠ "" := by
  intro hs
  apply h
  rw [hs]

/-- The operator `||` keeps a non-empty string on its left. -/
theorem jsOr_str (s : String) (b : JSValue) (h : s ≠ "") : jsOr (.str s) b = .str s := by
  simp [jsOr, JSValue.truthy, h]

/-- Each of the four priority names is an own key of `reasoningTemplates`, with a
non-empty string as value. -/
theorem reasoningTemplates_own (category score p : String) (hp : p ∈ priorityNames) :
    ∃ s, getProp (reasoningTemplates category score) p = .str s ∧ s ≠ "" := by
  simp only [priorityNames, List.mem_cons, List.mem_singleton, List.not_mem_nil,
    or_false] at hp
  rcases hp with rfl | rfl | rfl | rfl <;>
    refine ⟨_, rfl, ne_empty_of_data_ne_nil _ ?_⟩ <;>
    repeat (first | exact (by decide) | apply data_append_ne_nil)

/-- For a priority name and a numeric score the generated text is a non-empty
string. -/
theorem generateReasoning_nonempty (category p : String) (hp : p ∈ priorityNames)
    (n : Int) (hn : -9007199254740991 ≤ n ∧ n ≤ 9007199254740991) (text : String) :
    ∃ s, generateReasoning category p (.num n) text = .str s ∧ s ≠ "" := by
  obtain ⟨s, hs, hne⟩ := reasoningTemplates_own category (toString n) p hp
  refine ⟨s, ?_, hne⟩
  simp only [generateReasoning, toJSString, if_pos hn, hs]
  exact jsOr_str s _ hne

/-- C19: the reasoning of a result is a non-empty string, and two inputs whose
results agree on category, priority and risk score have the same reasoning; the
description handed to `generateReasoning` does not enter the text. -/
theorem builtInAIAnalyzer_reasoning_function (d₁ : String) (i₁ : Option String) :
    (∃ s, (builtInAIAnalyzer d₁ i₁).reasoning = .str s ∧ s ≠ "") ∧
    (∀ (d₂ : String) (i₂ : Option String),
      (builtInAIAnalyzer d₁ i₁).category = (builtInAIAnalyzer d₂ i₂).category →
      (builtInAIAnalyzer d₁ i₁).priority = (builtInAIAnalyzer d₂ i₂).priority →
      (builtInAIAnalyzer d₁ i₁).riskScore = (builtInAIAnalyzer d₂ i₂).riskScore →
      (builtInAIAnalyzer d₁ i₁).reasoning = (builtInAIAnalyzer d₂ i₂).reasoning) := by
  constructor
  · obtain ⟨n, hn, hlo, hhi⟩ := riskScore_local_bounds d₁ i₁
    rw [result_reasoning_eq, hn]
    exact generateReasoning_nonempty _ _ (detectPriority_mem _) n
      ⟨by omega, by omega⟩ _
  · intro d₂ i₂ hc hp hr
    rw [result_category_eq, result_category_eq] at hc
    rw [result_priority_eq, result_priority_eq] at hp
    rw [result_reasoning_eq, result_reasoning_eq, JSValue.str.inj hc, JSValue.str.inj hp,
      hr]
    rfl

/-- Witness for C19: "minor chair" and "SMALL desk" are both Furniture, Low, 28, and
receive the same reasoning. -/
theorem builtInAIAnalyzer_reasoning_function_witness :
    (builtInAIAnalyzer "minor chair" none).reasoning
      = (builtInAIAnalyzer "SMALL desk" (some "")).reasoning :=
  (builtInAIAnalyzer_reasoning_function "minor chair" none).2 "SMALL desk" (some "")
    (by decide) (by decide) (by decide)

/-! ## Case-insensitivity -/

/-- The check of the table of simple mappings succeeds: evaluated on the table. -/
theorem lowerRunsStable_eq : lowerRunsStable = true := by decide!

/-- The multiples of the step used within a run stay within its width. -/
theorem run_offset_le (width step k : Nat) (hk : k ≤ width / step) : k * step ≤ width :=
  le_trans (Nat.mul_le_mul_right step hk) (Nat.div_mul_le_self width step)

/-- A code point that no run of a list maps is left as it is by the lookup. -/
theorem simpleLowerAux_of_not_mapped (runs : List (Nat × Nat × Nat × Nat)) (m : Nat)
    (h : ∀ q ∈ runs, runMaps q m = false) : simpleLowerAux runs m = m := by
  induction runs with
  | nil => rfl
  | cons q rest ih =>
    have hq := h q (List.mem_cons_self _ _)
    obtain ⟨first, last, step, target⟩ := q
    simp only [simpleLowerAux]
    by_cases h₁ : m < first
    · rw [if_pos h₁]
    · rw [if_neg h₁]
      by_cases h₂ : m ≤ last
      · rw [if_pos h₂]
        by_cases h₃ : (m - first) % step = 0
        · exfalso
          have h₁' : first ≤ m := Nat.le_of_not_lt h₁
          simp [runMaps, Nat.ble_eq_true_of_le h₁', Nat.ble_eq_true_of_le h₂, h₃] at hq
        · rw [if_neg h₃]
      · rw [if_neg h₂]
        exact ih (fun q hq => h q (List.mem_cons_of_mem _ hq))

/-- What the check `runApart` says: no target of the one run is mapped by the
other. -/
theorem runApart_spec (r q : Nat × Nat × Nat × Nat) (h : runApart r q = true) (k : Nat)
    (hk : k ≤ (r.2.1 - r.1) / r.2.2.1) : runMaps q (r.2.2.2 + k * r.2.2.1) = false := by
  obtain ⟨first, last, step, target⟩ := r
  obtain ⟨first', last', step', target'⟩ := q
  have hk' : k ≤ (last - first) / step := hk
  have hd : k * step ≤ last - first := run_offset_le _ _ _ hk'
  simp only [runApart, Bool.or_eq_true, Bool.and_eq_true, Nat.blt_eq] at h
  show runMaps (first', last', step', target') (target + k * step) = false
  generalize hm : target + k * step = m
  cases hmaps : runMaps (first', last', step', target') m with
  | false => rfl
  | true =>
    exfalso
    simp only [runMaps, Bool.and_eq_true, Nat.ble_eq] at hmaps
    obtain ⟨⟨hlo, hhi⟩, hmod⟩ := hmaps
    have hmod' : (m - first') % step' = 0 := Nat.eq_of_beq_eq_true hmod
    rcases h with (h | h) | ⟨⟨hstep, hstep'⟩, hpar⟩
    · omega
    · omega
    · have hstep'' : step' = 2 := Nat.eq_of_beq_eq_true hstep'
      rw [hstep''] at hmod'
      have hpar' : (target + first') % 2 = 1 := Nat.eq_of_beq_eq_true hpar
      have heven : (k * step) % 2 = 0 := by
        rcases hstep with hs | hs
        · have hs' : step % 2 = 0 := Nat.eq_of_beq_eq_true hs
          simp [Nat.mul_mod, hs']
        · have hfl : first = last := Nat.eq_of_beq_eq_true hs
          have hk0 : k = 0 := by
            have hw : last - first = 0 := by omega
            rw [hw, Nat.zero_div] at hk'
            omega
          rw [hk0]
          simp
      omega

/-- What the check `runStable` says: every target of the run is left alone by
lowercasing. -/
theorem runStable_spec (r : Nat × Nat × Nat × Nat) (h : runStable r = true) (k : Nat)
    (hk : k ≤ (r.2.1 - r.1) / r.2.2.1) : stableNat (r.2.2.2 + k * r.2.2.1) = true := by
  simp only [runStable, Bool.and_eq_true, List.all_eq_true] at h
  obtain ⟨hvalid, hall⟩ := h
  have h130 := runApart_spec r _ (hall _ (List.mem_cons_self _ _)) k hk
  have h3A3 := runApart_spec r _
    (hall _ (List.mem_cons_of_mem _ (List.mem_cons_self _ _))) k hk
  have hrest : ∀ q ∈ lowerRuns, runMaps q (r.2.2.2 + k * r.2.2.1) = false :=
    fun q hq => runApart_spec r q
      (hall q (List.mem_cons_of_mem _ (List.mem_cons_of_mem _ hq))) k hk
  have hfix : simpleLower (r.2.2.2 + k * r.2.2.1) = r.2.2.2 + k * r.2.2.1 :=
    simpleLowerAux_of_not_mapped lowerRuns _ hrest
  have hd : k * r.2.2.1 ≤ r.2.1 - r.1 := run_offset_le _ _ _ hk
  have hv : (r.2.2.2 + k * r.2.2.1).isValidChar := by
    simp only [runValid, Bool.or_eq_true, Bool.and_eq_true, Nat.blt_eq] at hvalid
    unfold Nat.isValidChar
    omega
  have hne₁ : r.2.2.2 + k * r.2.2.1 ≠ 0x3A3 := by
    intro he
    rw [he] at h3A3
    exact absurd h3A3 (by decide)
  have hne₂ : r.2.2.2 + k * r.2.2.1 ≠ 0x130 := by
    intro he
    rw [he] at h130
    exact absurd h130 (by decide)
  simp [stableNat, hne₁, hne₂, hfix, hv]

/-- The lookup in a list of runs either leaves the code point as it is or returns a
target of one of the runs. -/
theorem simpleLowerAux_cases (runs : List (Nat × Nat × Nat × Nat)) (n : Nat) :
    simpleLowerAux runs n = n ∨
    ∃ r ∈ runs, ∃ k, k ≤ (r.2.1 - r.1) / r.2.2.1 ∧
      simpleLowerAux runs n = r.2.2.2 + k * r.2.2.1 := by
  induction runs with
  | nil => exact Or.inl rfl
  | cons r rest ih =>
    obtain ⟨first, last, step, target⟩ := r
    simp only [simpleLowerAux]
    by_cases h₁ : n < first
    · rw [if_pos h₁]
      exact Or.inl rfl
    · rw [if_neg h₁]
      by_cases h₂ : n ≤ last
      · rw [if_pos h₂]
        by_cases h₃ : (n - first) % step = 0
        · rw [if_pos h₃]
          have hk : (n - first) / step ≤ (last - first) / step :=
            Nat.div_le_div_right (by omega)
          refine Or.inr ⟨(first, last, step, target), List.mem_cons_self _ _,
            (n - first) / step, hk, ?_⟩
          show target + (n - first) = target + (n - first) / step * step
          rw [Nat.div_mul_cancel (Nat.dvd_of_mod_eq_zero h₃)]
        · rw [if_neg h₃]
          exact Or.inl rfl
      · rw [if_neg h₂]
        rcases ih with h | ⟨r, hr, k, hk, h⟩
        · exact Or.inl h
        · exact Or.inr ⟨r, List.mem_cons_of_mem _ hr, k, hk, h⟩

/-- What the check `stableNat` says. -/
theorem stableNat_spec (m : Nat) (h : stableNat m = true) :
    m ≠ 0x3A3 ∧ m ≠ 0x130 ∧ simpleLower m = m ∧ m.isValidChar := by
  simpa [stableNat, and_assoc] using h

/-- The simple mapping of a valid code point other than U+03A3 and U+0130 is left
alone by lowercasing. -/
theorem stableNat_simpleLower (n : Nat) (hvalid : n.isValidChar) (h₁ : n ≠ 0x3A3)
    (h₂ : n ≠ 0x130) : stableNat (simpleLower n) = true := by
  rcases simpleLowerAux_cases lowerRuns n with h | ⟨r, hr, k, hk, h⟩
  · have h' : simpleLower n = n := h
    rw [h']
    simp [stableNat, h₁, h₂, h', hvalid]
  · have hall := lowerRunsStable_eq
    unfold lowerRunsStable at hall
    have hrun := (List.all_eq_true.mp hall) r hr
    have h' : simpleLower n = r.2.2.2 + k * r.2.2.1 := h
    rw [h']
    exact runStable_spec r hrun k hk

/-- The character of a valid code point has that code point. -/
theorem toNat_ofNat_of_valid (m : Nat) (h : m.isValidChar) : (Char.ofNat m).toNat = m := by
  unfold Char.ofNat
  rw [dif_pos h]
  rfl

/-- The code point of a character is valid. -/
theorem char_toNat_valid (c : Char) : c.toNat.isValidChar := c.valid

/-- Every character of the lowercase form of a character is a fixed point. -/
theorem lowerChar_stable (before : List Char) (c : Char) (after : List Char) :
    ∀ x ∈ lowerChar before c after, stableNat x.toNat = true := by
  intro x hx
  unfold lowerChar at hx
  split at hx
  · split at hx
    · rw [List.mem_singleton.mp hx]; decide
    · rw [List.mem_singleton.mp hx]; decide
  · split at hx
    · simp only [List.mem_cons, List.mem_singleton, List.not_mem_nil, or_false] at hx
      rcases hx with rfl | rfl <;> decide
    · rename_i h₁ h₂
      rw [List.mem_singleton.mp hx]
      have hs := stableNat_simpleLower c.toNat (char_toNat_valid c) h₁ h₂
      rw [toNat_ofNat_of_valid _ (stableNat_spec _ hs).2.2.2]
      exact hs

/-- A character that lowercasing leaves alone is its own lowercase form in every
context. -/
theorem lowerChar_of_stable (before : List Char) (x : Char) (after : List Char)
    (h : stableNat x.toNat = true) : lowerChar before x after = [x] := by
  obtain ⟨h₁, h₂, h₃, _⟩ := stableNat_spec _ h
  unfold lowerChar
  rw [if_neg h₁, if_neg h₂, h₃, Char.ofNat_toNat]

/-- A text made of characters that lowercasing leaves alone is its own lowercase
form. -/
theorem lowerList_of_stable (l : List Char) :
    ∀ before, (∀ x ∈ l, stableNat x.toNat = true) → lowerList before l = l := by
  induction l with
  | nil => intro _ _; rfl
  | cons c cs ih =>
    intro before h
    simp only [lowerList]
    rw [lowerChar_of_stable _ _ _ (h c (List.mem_cons_self _ _)),
      ih _ (fun x hx => h x (List.mem_cons_of_mem _ hx))]
    rfl

/-- Every character of a lowercased text is left alone by lowercasing. -/
theorem lowerList_stable (l : List Char) :
    ∀ before, ∀ x ∈ lowerList before l, stableNat x.toNat = true := by
  induction l with
  | nil => intro _ x hx; simp [lowerList] at hx
  | cons c cs ih =>
    intro before x hx
    simp only [lowerList, List.mem_append] at hx
    rcases hx with hx | hx
    · exact lowerChar_stable _ _ _ x hx
    · exact ih _ x hx

/-- Lowercasing a string twice is lowercasing it once. -/
theorem toLowerCase_idem (s : String) : toLowerCase (toLowerCase s) = toLowerCase s := by
  unfold toLowerCase
  congr 1
  exact lowerList_of_stable _ [] (lowerList_stable s.data [])

/-- The lowercase mapping beyond ASCII: the Kelvin sign U+212A becomes `k`, the
capital I with dot U+0130 becomes `i` followed by the combining dot U+0307, and a
capital sigma becomes the final form at the end of a word only. The analyzer finds
the keyword "gas leak" in a description written with the Kelvin sign, and "wifi" in
one written with the dotted capital I. -/
theorem toLowerCase_beyond_ascii :
    toLowerCase "GAS LEA\u212A in the lab" = "gas leak in the lab" ∧
    toLowerCase "WIF\u0130 is down" = "wifi\u0307 is down" ∧
    toLowerCase "\u039F\u0394\u039F\u03A3 \u03A3\u039F\u03A3"
      = "\u03BF\u03B4\u03BF\u03C2 \u03C3\u03BF\u03C2" ∧
    (builtInAIAnalyzer "GAS LEA\u212A in the lab" none).category = .str "Plumbing" ∧
    (builtInAIAnalyzer "GAS LEA\u212A in the lab" none).priority = .str "Critical" ∧
    (builtInAIAnalyzer "WIF\u0130 is down" none).category
      = .str "IT Infrastructure" := by
  decide

/-- The result of the built-in analyzer is determined by the lowercased description
and the image reference. -/
theorem builtInAIAnalyzer_congr_lower (d₁ d₂ : String) (imageUrl : Option String)
    (h : toLowerCase d₁ = toLowerCase d₂) :
    builtInAIAnalyzer d₁ imageUrl = builtInAIAnalyzer d₂ imageUrl := by
  simp only [builtInAIAnalyzer, h]

/-- C20: classification is case-insensitive. The result for a description equals, in
every field, the result for its lowercase form, and two descriptions with the same
lowercase form receive identical results. -/
theorem builtInAIAnalyzer_case_insensitive (description : String)
    (imageUrl : Option String) :
    builtInAIAnalyzer description imageUrl
      = builtInAIAnalyzer (toLowerCase description) imageUrl ∧
    (∀ d₂ : String, toLowerCase description = toLowerCase d₂ →
      builtInAIAnalyzer description imageUrl = builtInAIAnalyzer d₂ imageUrl) :=
  ⟨builtInAIAnalyzer_congr_lower _ _ _ (toLowerCase_idem description).symm,
    fun _ h => builtInAIAnalyzer_congr_lower _ _ _ h⟩

/-- Witness for C20: "FIRE in the WIRE" and "fire in the wire" receive identical
results. -/
theorem builtInAIAnalyzer_case_insensitive_witness :
    toLowerCase "FIRE in the WIRE" = "fire in the wire" ∧
    builtInAIAnalyzer "FIRE in the WIRE" (some "photo.png")
      = builtInAIAnalyzer "fire in the wire" (some "photo.png") :=
  ⟨by decide,
    (builtInAIAnalyzer_case_insensitive "FIRE in the WIRE" (some "photo.png")).2
      "fire in the wire" (by decide)⟩

/-! ## Route handlers -/

/-- The empty string has length zero. -/
theorem jsLength_empty : jsLength "" = 0 := rfl

/-- A truthy value has a `length` read that does not throw. -/
theorem lengthNumber_of_truthy (v : BodyValue) (h : v.truthy = true) :
    ∃ length, v.lengthNumber = some length := by
  cases v <;> simp [BodyValue.truthy, BodyValue.lengthNumber] at h ⊢

/-- C21, as stated, fails: the description `7`, a number, is neither missing nor
empty, and it has fewer than 10 characters, yet the handler does not answer 400. A
number has no `length`, the comparison of `undefined` with 10 is false, the request
passes the check and, the remote service being down, `builtInAIAnalyzer` throws on
it, so the complaint is created with the safe defaults. -/
theorem postComplaint_number_description :
    (postComplaint
        { remote := .rejected "connect ECONNREFUSED", createError := none,
          populateError := none }
        { id := "u1", role := "student" }
        { description := .num (.finite 7), location := .undefined, block := .undefined,
          file := none, protocol := "http", host := "localhost:5000" }).response.status
      = 201 ∧
    (postComplaint
        { remote := .rejected "connect ECONNREFUSED", createError := none,
          populateError := none }
        { id := "u1", role := "student" }
        { description := .num (.finite 7), location := .undefined, block := .undefined,
          file := none, protocol := "http", host := "localhost:5000" }).analyzed
      = [(.num (.finite 7), none)] ∧
    (postComplaint
        { remote := .rejected "connect ECONNREFUSED", createError := none,
          populateError := none }
        { id := "u1", role := "student" }
        { description := .num (.finite 7), location := .undefined, block := .undefined,
          file := none, protocol := "http", host := "localhost:5000" }).created.map
        (fun doc => (doc.description, doc.category, doc.riskScore))
      = [(.num (.finite 7), .str "Others", .num 50)] := by
  simp [postComplaint, BodyValue.truthy, BodyValue.lengthNumber, JSNumber.lt,
    analyzeComplaintBody, tryBlock, safeDefaults]

/-- C21, amended: the handler of `POST /api/complaints` answers 400 exactly when the
description is falsy or the number its `length` converts to is less than 10; a 400
answer carries the message "Description must be at least 10 characters long", and
then `analyzeComplaint` is not called and no complaint is created; every other
request is analysed once, with its description. For a description that is a string
this is the claim: 400 exactly when it has fewer than 10 code units, and a string of
length 10 or more is analysed. -/
theorem postComplaint_description_check (env : ComplaintEnv) (user : Requester)
    (req : ComplaintRequest) :
    ((postComplaint env user req).response.status = 400 ↔
      (req.description.truthy = false ∨
        ∃ length, req.description.lengthNumber = some length ∧ length.lt 10 = true)) ∧
    ((postComplaint env user req).response.status = 400 →
      (postComplaint env user req).response.message
        = some "Description must be at least 10 characters long" ∧
      (postComplaint env user req).analyzed = [] ∧
      (postComplaint env user req).created = []) ∧
    ((postComplaint env user req).response.status ≠ 400 →
      ∃ imageUrl, (postComplaint env user req).analyzed = [(req.description, imageUrl)]) ∧
    (∀ s asNumber, req.description = .str s asNumber →
      ((postComplaint env user req).response.status = 400 ↔ jsLength s < 10)) ∧
    (∀ s asNumber, req.description = .str s asNumber → 10 ≤ jsLength s →
      ∃ imageUrl, (postComplaint env user req).analyzed = [(.str s asNumber, imageUrl)]) := by
  obtain ⟨description, location, block, file, protocol, host⟩ := req
  obtain ⟨remote, createError, populateError⟩ := env
  have key :
      ((description.truthy = false ∨
          ∃ length, description.lengthNumber = some length ∧ length.lt 10 = true) →
        postComplaint ⟨remote, createError, populateError⟩ user
            ⟨description, location, block, file, protocol, host⟩
          = { response :=
                { status := 400
                  message := some "Description must be at least 10 characters long" }
              analyzed := []
              created := [] }) ∧
      (¬ (description.truthy = false ∨
          ∃ length, description.lengthNumber = some length ∧ length.lt 10 = true) →
        (postComplaint ⟨remote, createError, populateError⟩ user
            ⟨description, location, block, file, protocol, host⟩).response.status ≠ 400 ∧
        ∃ imageUrl,
          (postComplaint ⟨remote, createError, populateError⟩ user
            ⟨description, location, block, file, protocol, host⟩).analyzed
            = [(description, imageUrl)]) := by
    constructor
    · rintro (h | ⟨length, hl, hlt⟩)
      · simp [postComplaint, h]
      · by_cases ht : description.truthy = false
        · simp [postComplaint, ht]
        · simp [postComplaint, ht, hl, hlt]
    · intro h
      have ht : ¬ description.truthy = false := fun h' => h (Or.inl h')
      obtain ⟨length, hl⟩ := lengthNumber_of_truthy description (by simpa using ht)
      have hlt : ¬ length.lt 10 = true := fun h' => h (Or.inr ⟨length, hl, h'⟩)
      cases createError <;> cases populateError <;>
        simp [postComplaint, ht, hl, hlt]
  have hiff :
      (postComplaint ⟨remote, createError, populateError⟩ user
          ⟨description, location, block, file, protocol, host⟩).response.status = 400 ↔
        (description.truthy = false ∨
          ∃ length, description.lengthNumber = some length ∧ length.lt 10 = true) := by
    constructor
    · intro h400
      by_contra hn
      exact (key.2 hn).1 h400
    · intro h
      rw [key.1 h]
  have hstr : ∀ s asNumber, description = .str s asNumber →
      ((description.truthy = false ∨
          ∃ length, description.lengthNumber = some length ∧ length.lt 10 = true) ↔
        jsLength s < 10) := by
    intro s asNumber hd
    subst hd
    constructor
    · rintro (h | ⟨length, hl, hlt⟩)
      · have hs : s = "" := by simpa [BodyValue.truthy] using h
        rw [hs, jsLength_empty]
        omega
      · simp only [BodyValue.lengthNumber, Option.some.injEq] at hl
        subst hl
        simpa [JSNumber.lt] using hlt
    · intro h
      refine Or.inr ⟨_, rfl, ?_⟩
      simp only [JSNumber.lt, decide_eq_true_eq]
      exact_mod_cast h
  refine ⟨hiff, ?_, ?_, ?_, ?_⟩
  · intro h400
    rw [key.1 (hiff.mp h400)]
    exact ⟨rfl, rfl, rfl⟩
  · intro hne
    exact (key.2 (fun h => hne (hiff.mpr h))).2
  · intro s asNumber hd
    exact hiff.trans (hstr s asNumber hd)
  · intro s asNumber hd hlen
    have hn := key.2 (fun h => absurd ((hstr s asNumber hd).mp h) (by omega))
    have hd' : description = BodyValue.str s asNumber := hd
    rw [← hd']
    exact hn.2

/-- C22: `GET /api/complaints/user/:id` answers 403 "Access denied" exactly when the
requester is not an admin and the requester's id differs from `:id`;
`GET /api/complaints/:id` answers 403 exactly when the complaint is found, the
requester is not an admin and the owner's id differs from the requester's id; an
admin is never answered 403 by either. -/
theorem complaint_access_checks (queryError : Option String)
    (lookup : Except String (Option StoredComplaint)) (user : Requester)
    (paramsId : String) :
    ((getUserComplaints queryError user paramsId).status = 403 ↔
      (user.role ≠ "admin" ∧ user.id ≠ paramsId)) ∧
    ((getUserComplaints queryError user paramsId).status = 403 →
      (getUserComplaints queryError user paramsId).message = some "Access denied") ∧
    ((getComplaintById lookup user).status = 403 ↔
      ∃ c, lookup = .ok (some c) ∧ user.role ≠ "admin" ∧ c.ownerId ≠ user.id) ∧
    ((getComplaintById lookup user).status = 403 →
      (getComplaintById lookup user).message = some "Access denied") ∧
    (user.role = "admin" →
      (getUserComplaints queryError user paramsId).status ≠ 403 ∧
      (getComplaintById lookup user).status ≠ 403) := by
  have hUser : (getUserComplaints queryError user paramsId).status = 403 ↔
      (user.role ≠ "admin" ∧ user.id ≠ paramsId) := by
    by_cases h : user.role ≠ "admin" ∧ user.id ≠ paramsId
    · simp [getUserComplaints, h]
    · cases queryError <;> simp [getUserComplaints, h]
  have hUserMsg : (getUserComplaints queryError user paramsId).status = 403 →
      (getUserComplaints queryError user paramsId).message = some "Access denied" := by
    intro h403
    have h := hUser.mp h403
    simp [getUserComplaints, h]
  have hId : (getComplaintById lookup user).status = 403 ↔
      ∃ c, lookup = .ok (some c) ∧ user.role ≠ "admin" ∧ c.ownerId ≠ user.id := by
    cases lookup with
    | error m => simp [getComplaintById]
    | ok found =>
      cases found with
      | none => simp [getComplaintById]
      | some c =>
        by_cases h : user.role ≠ "admin" ∧ c.ownerId ≠ user.id
        · simp [getComplaintById, h]
        · simp only [getComplaintById, if_neg h]
          constructor
          · intro h200
            exact absurd h200 (by decide)
          · rintro ⟨c', hc', hrest⟩
            have : c' = c := (Option.some.inj (Except.ok.inj hc')).symm
            rw [this] at hrest
            exact absurd hrest h
  have hIdMsg : (getComplaintById lookup user).status = 403 →
      (getComplaintById lookup user).message = some "Access denied" := by
    intro h403
    obtain ⟨c, hc, hrest⟩ := hId.mp h403
    simp [getComplaintById, hc, hrest]
  refine ⟨hUser, hUserMsg, hId, hIdMsg, ?_⟩
  intro hadmin
  constructor
  · intro h403
    exact (hUser.mp h403).1 hadmin
  · intro h403
    obtain ⟨_, _, hrole, _⟩ := hId.mp h403
    exact hrole hadmin

/-- C23, as stated, fails: the rating "abc" is not between 1 and 5. It is truthy,
and as a number it is `NaN`, for which both `rating < 1` and `rating > 5` are false,
so the handler hands the feedback to `Feedback.create`, whatever that call then
does, and answers 201 when the call does not throw. -/
theorem postFeedback_text_rating :
    (BodyValue.str "abc" .nan).toNumber = .nan ∧
    (postFeedback
        { complaint := .ok (some { ownerId := "u1" }), existing := .ok false,
          createError := none }
        { id := "u1", role := "student" }
        { complaintId := .str "c1" .nan, rating := .str "abc" .nan,
          comment := .undefined }).response.status = 201 ∧
    (postFeedback
        { complaint := .ok (some { ownerId := "u1" }), existing := .ok false,
          createError := none }
        { id := "u1", role := "student" }
        { complaintId := .str "c1" .nan, rating := .str "abc" .nan,
          comment := .undefined }).created
      = [{ complaintId := .str "c1" .nan, userId := "u1", rating := .str "abc" .nan,
           comment := .str "" (.finite 0) }] ∧
    (postFeedback
        { complaint := .ok (some { ownerId := "u1" }), existing := .ok false,
          createError := some "Feedback validation failed" }
        { id := "u1", role := "student" }
        { complaintId := .str "c1" .nan, rating := .str "abc" .nan,
          comment := .undefined }).submitted
      = [{ complaintId := .str "c1" .nan, userId := "u1", rating := .str "abc" .nan,
           comment := .str "" (.finite 0) }] := by
  simp [postFeedback, BodyValue.truthy, BodyValue.toNumber, JSNumber.lt, JSNumber.gt,
    orEmpty]

/-- C23, amended: `POST /api/feedback` hands a feedback to `Feedback.create` only if
the complaint id and the rating are truthy, neither `rating < 1` nor `rating > 5`
holds for the number the rating converts to, the complaint is found, the requester is
its owner and no feedback of the requester for the complaint is found; a record is
created only if it was so handed over, and then the answer is 201. A rating that is a
number is then between 1 and 5. A rating that is falsy (absent among others), or
that converts to a number below 1 or above 5, is answered with status 400, and
nothing is handed over or created. -/
theorem postFeedback_guards (env : FeedbackEnv) (user : Requester)
    (req : FeedbackRequest) :
    ((postFeedback env user req).submitted ≠ [] →
      ∃ complaint,
        req.complaintId.truthy = true ∧ req.rating.truthy = true ∧
        req.rating.toNumber.lt 1 = false ∧ req.rating.toNumber.gt 5 = false ∧
        (∀ q, req.rating = .num (.finite q) → 1 ≤ q ∧ q ≤ 5) ∧
        env.complaint = .ok (some complaint) ∧ complaint.ownerId = user.id ∧
        env.existing = .ok false) ∧
    ((postFeedback env user req).created ≠ [] →
      (postFeedback env user req).created = (postFeedback env user req).submitted ∧
      env.createError = none ∧
      (postFeedback env user req).response.status = 201) ∧
    ((req.rating.truthy = false ∨ req.rating.toNumber.lt 1 = true ∨
        req.rating.toNumber.gt 5 = true) →
      (postFeedback env user req).response.status = 400 ∧
      (postFeedback env user req).submitted = [] ∧
      (postFeedback env user req).created = []) := by
  obtain ⟨complaintId, rating, comment⟩ := req
  obtain ⟨complaint, existing, createError⟩ := env
  refine ⟨?_, ?_, ?_⟩
  · intro hsub
    by_cases h₁ : complaintId.truthy = false ∨ rating.truthy = false
    · simp [postFeedback, h₁] at hsub
    · by_cases h₂ : rating.toNumber.lt 1 = true ∨ rating.toNumber.gt 5 = true
      · simp [postFeedback, h₁, h₂] at hsub
      · have hc : complaintId.truthy = true := by
          cases hv : complaintId.truthy
          · exact absurd (Or.inl hv) h₁
          · rfl
        have hr : rating.truthy = true := by
          cases hv : rating.truthy
          · exact absurd (Or.inr hv) h₁
          · rfl
        have hlt : rating.toNumber.lt 1 = false := by
          cases hv : rating.toNumber.lt 1
          · rfl
          · exact absurd (Or.inl hv) h₂
        have hgt : rating.toNumber.gt 5 = false := by
          cases hv : rating.toNumber.gt 5
          · rfl
          · exact absurd (Or.inr hv) h₂
        have hnum : ∀ q, rating = .num (.finite q) → 1 ≤ q ∧ q ≤ 5 := by
          intro q hq
          subst hq
          simp only [BodyValue.toNumber, JSNumber.lt, JSNumber.gt,
            decide_eq_false_iff_not, not_lt] at hlt hgt
          exact ⟨hlt, hgt⟩
        cases complaint with
        | error m => simp [postFeedback, h₁, h₂] at hsub
        | ok found =>
          cases found with
          | none => simp [postFeedback, h₁, h₂] at hsub
          | some c =>
            by_cases h₃ : c.ownerId ≠ user.id
            · simp [postFeedback, h₁, h₂, h₃] at hsub
            · have hown : c.ownerId = user.id := not_not.mp h₃
              cases existing with
              | error m => simp [postFeedback, h₁, h₂, h₃] at hsub
              | ok found =>
                cases found with
                | true => simp [postFeedback, h₁, h₂, h₃] at hsub
                | false => exact ⟨c, hc, hr, hlt, hgt, hnum, rfl, hown, rfl⟩
  · intro hcreated
    by_cases h₁ : complaintId.truthy = false ∨ rating.truthy = false
    · simp [postFeedback, h₁] at hcreated
    · by_cases h₂ : rating.toNumber.lt 1 = true ∨ rating.toNumber.gt 5 = true
      · simp [postFeedback, h₁, h₂] at hcreated
      · cases complaint with
        | error m => simp [postFeedback, h₁, h₂] at hcreated
        | ok found =>
          cases found with
          | none => simp [postFeedback, h₁, h₂] at hcreated
          | some c =>
            by_cases h₃ : c.ownerId ≠ user.id
            · simp [postFeedback, h₁, h₂, h₃] at hcreated
            · cases existing with
              | error m => simp [postFeedback, h₁, h₂, h₃] at hcreated
              | ok found =>
                cases found with
                | true => simp [postFeedback, h₁, h₂, h₃] at hcreated
                | false =>
                  cases createError with
                  | some m => simp [postFeedback, h₁, h₂, h₃] at hcreated
                  | none => simp [postFeedback, h₁, h₂, h₃]
  · intro hbad
    by_cases h₁ : complaintId.truthy = false ∨ rating.truthy = false
    · simp [postFeedback, h₁]
    · have h₂ : rating.toNumber.lt 1 = true ∨ rating.toNumber.gt 5 = true := by
        rcases hbad with h | h | h
        · exact absurd (Or.inr h) h₁
        · exact Or.inl h
        · exact Or.inr h
      simp [postFeedback, h₁, h₂]

/-- Witness for C23: a rating of 4 by the owner, with no earlier feedback, is handed
to `Feedback.create` only because it passes every guard; a rating of 6 is answered
400. -/
theorem postFeedback_guards_witness :
    (∃ complaint : StoredComplaint,
      (Except.ok (some { ownerId := "u1" }) : Except String (Option StoredComplaint))
          = .ok (some complaint) ∧
        complaint.ownerId = "u1") ∧
    (postFeedback
        { complaint := .ok (some { ownerId := "u1" }), existing := .ok false,
          createError := none }
        { id := "u1", role := "student" }
        { complaintId := .str "c1" .nan, rating := .num (.finite 6),
          comment := .undefined }).response.status = 400 := by
  constructor
  · obtain ⟨c, _, _, _, _, _, hc, hown, _⟩ := (postFeedback_guards
        { complaint := .ok (some { ownerId := "u1" }), existing := .ok false,
          createError := none }
        { id := "u1", role := "student" }
        { complaintId := .str "c1" .nan, rating := .num (.finite 4),
          comment := .undefined }).1
        (by simp [postFeedback, BodyValue.truthy, BodyValue.toNumber, JSNumber.lt,
          JSNumber.gt]; norm_num)
    exact ⟨c, hc, hown⟩
  · exact ((postFeedback_guards
        { complaint := .ok (some { ownerId := "u1" }), existing := .ok false,
          createError := none }
        { id := "u1", role := "student" }
        { complaintId := .str "c1" .nan, rating := .num (.finite 6),
          comment := .undefined }).2.2
        (Or.inr (Or.inr (by simp [BodyValue.toNumber, JSNumber.gt]; norm_num)))).1

/-! ## Substrings of concatenations -/

/-- A substring of a text is a substring of every text that contains it. -/
theorem includes_of_infix (a b kw : String) (hab : a.data <:+: b.data)
    (h : includes a kw = true) : includes b kw = true :=
  ( includes_iff_infix b kw).mpr ((( includes_iff_infix a kw).mp h).trans hab)

/-- A substring of the first part occurs in the concatenation. -/
theorem includes_append_left (a b x : String) (h : includes a x = true) :
    includes (a ++ b) x = true :=
  includes_of_infix a (a ++ b) x
    (by rw [String.data_append]; exact (List.prefix_append _ _).isInfix) h

/-- A substring of the second part occurs in the concatenation. -/
theorem includes_append_right (a b x : String) (h : includes b x = true) :
    includes (a ++ b) x = true :=
  includes_of_infix b (a ++ b) x
    (by rw [String.data_append]; exact (List.suffix_append _ _).isInfix) h

/-- Every string contains itself. -/
theorem includes_self (x : String) : includes x x = true :=
  ( includes_iff_infix x x).mpr (List.infix_refl _)

/-- A string made of the end of one part and the start of the next one occurs in the
concatenation. -/
theorem includes_span (a x b y : String) (h : y.data.isPrefixOf b.data = true) :
    includes ((a ++ x) ++ b) (x ++ y) = true := by
  rw [ includes_iff_infix]
  obtain ⟨t, ht⟩ := List.isPrefixOf_iff_prefix.mp h
  refine ⟨a.data, t, ?_⟩
  simp [String.data_append, ← ht]

/-! ## The text of `generateReasoning` -/

/-- For a priority name and a numeric score, `generateReasoning` returns the own
entry of `reasoningTemplates` at that name. -/
theorem generateReasoning_own (category p : String) (hp : p ∈ priorityNames) (n : Int)
    (hn : -9007199254740991 ≤ n ∧ n ≤ 9007199254740991) (text : String) :
    generateReasoning category p (.num n) text
      = getProp (reasoningTemplates category (toString n)) p := by
  obtain ⟨s, hs, hne⟩ := reasoningTemplates_own category (toString n) p hp
  simp only [generateReasoning, toJSString, if_pos hn, hs]
  exact jsOr_str s _ hne

/-- C24: for each of the four priorities and every risk score that is a safe integer
(so every score from 0 to 100), `generateReasoning` returns the template keyed by
that priority, a text that contains the category, the decimal risk score
immediately followed by "/100", and the upper-case label of the priority. -/
theorem generateReasoning_interpolates (category : String) (n : Int) (text : String)
    (hn : -9007199254740991 ≤ n ∧ n ≤ 9007199254740991) :
    (∃ s, generateReasoning category "Critical" (.num n) text = .str s ∧
      getProp (reasoningTemplates category (toString n)) "Critical" = .str s ∧
      includes s category = true ∧ includes s (toString n ++ "/100") = true ∧
      includes s "CRITICAL" = true) ∧
    (∃ s, generateReasoning category "High" (.num n) text = .str s ∧
      getProp (reasoningTemplates category (toString n)) "High" = .str s ∧
      includes s category = true ∧ includes s (toString n ++ "/100") = true ∧
      includes s "HIGH" = true) ∧
    (∃ s, generateReasoning category "Medium" (.num n) text = .str s ∧
      getProp (reasoningTemplates category (toString n)) "Medium" = .str s ∧
      includes s category = true ∧ includes s (toString n ++ "/100") = true ∧
      includes s "MEDIUM" = true) ∧
    (∃ s, generateReasoning category "Low" (.num n) text = .str s ∧
      getProp (reasoningTemplates category (toString n)) "Low" = .str s ∧
      includes s category = true ∧ includes s (toString n ++ "/100") = true ∧
      includes s "LOW" = true) := by
  refine ⟨?_, ?_, ?_, ?_⟩
  · obtain ⟨s, hs, _⟩ := reasoningTemplates_own category (toString n) "Critical" (by decide)
    have hs' : s = _ := JSValue.str.inj (hs.symm.trans rfl)
    refine ⟨s, (generateReasoning_own category _ (by decide) n hn text).trans hs, hs, ?_⟩
    rw [hs']
    refine ⟨?_, ?_, ?_⟩
    · repeat (first
        | exact includes_append_right _ _ _ (includes_self _)
        | apply includes_append_left)
    · repeat (first
        | exact includes_span _ _ _ _ (by decide)
        | apply includes_append_left)
    · repeat (first
        | exact (by decide)
        | exact includes_append_right _ _ _ (by decide)
        | apply includes_append_left)
  · obtain ⟨s, hs, _⟩ := reasoningTemplates_own category (toString n) "High" (by decide)
    have hs' : s = _ := JSValue.str.inj (hs.symm.trans rfl)
    refine ⟨s, (generateReasoning_own category _ (by decide) n hn text).trans hs, hs, ?_⟩
    rw [hs']
    refine ⟨?_, ?_, ?_⟩
    · repeat (first
        | exact includes_append_right _ _ _ (includes_self _)
        | apply includes_append_left)
    · repeat (first
        | exact includes_span _ _ _ _ (by decide)
        | apply includes_append_left)
    · repeat (first
        | exact (by decide)
        | exact includes_append_right _ _ _ (by decide)
        | apply includes_append_left)
  · obtain ⟨s, hs, _⟩ := reasoningTemplates_own category (toString n) "Medium" (by decide)
    have hs' : s = _ := JSValue.str.inj (hs.symm.trans rfl)
    refine ⟨s, (generateReasoning_own category _ (by decide) n hn text).trans hs, hs, ?_⟩
    rw [hs']
    refine ⟨?_, ?_, ?_⟩
    · repeat (first
        | exact includes_append_right _ _ _ (includes_self _)
        | apply includes_append_left)
    · repeat (first
        | exact includes_span _ _ _ _ (by decide)
        | apply includes_append_left)
    · repeat (first
        | exact (by decide)
        | exact includes_append_right _ _ _ (by decide)
        | apply includes_append_left)
  · obtain ⟨s, hs, _⟩ := reasoningTemplates_own category (toString n) "Low" (by decide)
    have hs' : s = _ := JSValue.str.inj (hs.symm.trans rfl)
    refine ⟨s, (generateReasoning_own category _ (by decide) n hn text).trans hs, hs, ?_⟩
    rw [hs']
    refine ⟨?_, ?_, ?_⟩
    · repeat (first
        | exact includes_append_right _ _ _ (includes_self _)
        | apply includes_append_left)
    · repeat (first
        | exact includes_span _ _ _ _ (by decide)
        | apply includes_append_left)
    · repeat (first
        | exact (by decide)
        | exact includes_append_right _ _ _ (by decide)
        | apply includes_append_left)

/-- Witness for C24: category "Plumbing" with risk score 75. -/
theorem generateReasoning_interpolates_witness :
    ∃ s, generateReasoning "Plumbing" "High" (.num 75) "water leaking" = .str s ∧
      includes s "Plumbing" = true ∧ includes s "75/100" = true ∧
      includes s "HIGH" = true := by
  obtain ⟨s, h, _, h₁, h₂, h₃⟩ :=
    (generateReasoning_interpolates "Plumbing" 75 "water leaking"
      ⟨by decide, by decide⟩).2.1
  exact ⟨s, h, h₁, h₂, h₃⟩

/-- A property name inherited from `Object.prototype` is not answered with a template:
`reasoningTemplates["constructor"]` is the function every object literal inherits, a
truthy value, and `generateReasoning` would return it. No call of the program passes
such a name: the function is not exported, and its one caller passes one of the four
priority names. -/
theorem generateReasoning_inherited_key :
    "constructor" ∉ priorityNames ∧
    getProp (reasoningTemplates "Plumbing" "60") "constructor" = .other ∧
    generateReasoning "Plumbing" "constructor" (.num 60) "" = .other ∧
    generateReasoning "Plumbing" "constructor" (.num 60) ""
      ≠ getProp (reasoningTemplates "Plumbing" "60") "Medium" := by
  decide

/-- C25: for every priority value that is none of the four names, the names every
object inherits from `Object.prototype` apart, `generateReasoning` returns exactly
the Medium template with the given category and risk score; and inside
`builtInAIAnalyzer`, the one caller, this branch is not reached, the priority passed
being always one of the four, whose own template is returned. -/
theorem generateReasoning_fallback (category p : String) (riskScore : JSValue)
    (score text : String) (hscore : toJSString riskScore = some score)
    (hp : p ∉ priorityNames) (hproto : p ∉ objectPrototypeKeys) :
    generateReasoning category p riskScore text
      = .str ("This complaint has been analyzed and categorized as " ++ category
          ++ " with MEDIUM priority (risk score: " ++ score ++ "/100). Standard "
          ++ "resolution protocols apply. The assigned department should schedule "
          ++ "inspection and repair within 3-5 business days.") ∧
    generateReasoning category p riskScore text
      = getProp (reasoningTemplates category score) "Medium" ∧
    (∀ (description : String) (imageUrl : Option String),
      detectPriority (toLowerCase description) ∈ priorityNames ∧
      ∃ score : String,
        (builtInAIAnalyzer description imageUrl).reasoning
          = getProp (reasoningTemplates (detectCategory (toLowerCase description)) score)
              (detectPriority (toLowerCase description))) := by
  have hlookup : (reasoningTemplates category score).lookup p = none := by
    simp only [priorityNames, List.mem_cons, List.mem_singleton, List.not_mem_nil,
      or_false, not_or] at hp
    obtain ⟨h₁, h₂, h₃, h₄⟩ := hp
    simp [reasoningTemplates, List.lookup, beq_eq_false_iff_ne.mpr h₁,
      beq_eq_false_iff_ne.mpr h₂, beq_eq_false_iff_ne.mpr h₃, beq_eq_false_iff_ne.mpr h₄]
  have hget : getProp (reasoningTemplates category score) p = .undefined := by
    simp [getProp, hlookup, hproto]
  have hmain : generateReasoning category p riskScore text
      = getProp (reasoningTemplates category score) "Medium" := by
    simp only [generateReasoning, hscore, hget]
    rfl
  refine ⟨hmain.trans rfl, hmain, ?_⟩
  intro description imageUrl
  refine ⟨detectPriority_mem _, ?_⟩
  obtain ⟨b, k, _, _, hb, hb', hk, hk', hraw⟩ :=
    rawRiskScore_table (detectPriority (toLowerCase description))
      (detectCategory (toLowerCase description)) (detectPriority_mem _)
      (detectCategory_mem _) imageUrl
  have him := imageBonus_bounds imageUrl
  have hrisk : (builtInAIAnalyzer description imageUrl).riskScore
      = .num (min 100 (b + k + imageBonus imageUrl)) := by
    rw [result_riskScore_eq, hraw]
    rfl
  refine ⟨toString (min 100 (b + k + imageBonus imageUrl)), ?_⟩
  rw [result_reasoning_eq, hrisk]
  exact generateReasoning_own _ _ (detectPriority_mem _) _ ⟨by omega, by omega⟩ _

/-- Witness for C25: the priority "Urgent" gets the Medium template. -/
theorem generateReasoning_fallback_witness :
    generateReasoning "Plumbing" "Urgent" (.num 60) "burst pipe"
      = getProp (reasoningTemplates "Plumbing" "60") "Medium" :=
  (generateReasoning_fallback "Plumbing" "Urgent" (.num 60) "60" "burst pipe"
    (by decide) (by decide) (by decide)).2.1

/-! ## Calls of `analyzeComplaint` -/

/-- The traced function returns what `analyzeComplaint` returns. -/
theorem analyzeComplaintTraced_result (remote : RemoteOutcome) (description : String)
    (imageUrl : Option String) :
    (analyzeComplaintTraced remote description imageUrl).2
      = analyzeComplaint remote description imageUrl := by
  unfold analyzeComplaintTraced analyzeComplaint
  cases tryBlock remote <;> rfl

/-- C26: a call of `analyzeComplaint` makes one request to the remote service, with
the description and image reference it was given, and no second one. When the `try`
block completes, nothing else is called; when it throws (the request was rejected,
or the response body was `null` or `undefined`), the built-in analyzer is called
once, after the request, with the same arguments. -/
theorem analyzeComplaint_single_attempt (remote : RemoteOutcome) (description : String)
    (imageUrl : Option String) :
    ((∃ r, tryBlock remote = .ok r) ∧
      (analyzeComplaintTraced remote description imageUrl).1
        = [.post description imageUrl 50000]) ∨
    ((∃ e, tryBlock remote = .error e) ∧
      (analyzeComplaintTraced remote description imageUrl).1
        = [.post description imageUrl 50000, .builtIn description imageUrl] ∧
      (analyzeComplaintTraced remote description imageUrl).2
        = .ok (builtInAIAnalyzer description imageUrl) ∧
      analyzeComplaint remote description imageUrl
        = .ok (builtInAIAnalyzer description imageUrl)) := by
  unfold analyzeComplaintTraced analyzeComplaint
  cases h : tryBlock remote with
  | ok r => exact Or.inl ⟨⟨r, rfl⟩, rfl⟩
  | error e => exact Or.inr ⟨⟨e, rfl⟩, rfl, rfl, rfl⟩

/-! ## Seed data -/

/-- C27, as stated, fails: for the first seed complaint the built-in analyzer finds
no priority keyword and computes Medium, "3-5 days" and 60 where the seed data say
High, "1-2 days" and 75; for the second it finds "not working" and computes High,
"1-2 days" and 85 where the seed data say Medium, "3-5 days" and 55. -/
theorem sampleComplaints_not_all_computed :
    (builtInAIAnalyzer "Water leaking from the pipe in bathroom on 3rd floor" none).priority
      = .str "Medium" ∧
    (builtInAIAnalyzer "Water leaking from the pipe in bathroom on 3rd floor" none).riskScore
      = .num 60 ∧
    (builtInAIAnalyzer "Classroom lights flickering and one tube light is not working"
      none).priority = .str "High" ∧
    (builtInAIAnalyzer "Classroom lights flickering and one tube light is not working"
      none).riskScore = .num 85 ∧
    sampleComplaints.map sampleAgrees = [false, false, true] := by
  decide

/-- C27, amended: each of the three seed complaints carries the category and the
department the built-in analyzer computes for its description without image; the
third also carries the computed priority, estimated resolution and risk score,
while for the first the analyzer computes Medium, "3-5 days", 60 and for the second
High, "1-2 days", 85. -/
theorem sampleComplaints_vs_analyzer :
    (∀ c ∈ sampleComplaints,
      (builtInAIAnalyzer c.description none).category = .str c.category ∧
      (builtInAIAnalyzer c.description none).department = .str c.department) ∧
    sampleComplaints.map
        (fun c =>
          ((builtInAIAnalyzer c.description none).priority,
            (builtInAIAnalyzer c.description none).estimatedResolution,
            (builtInAIAnalyzer c.description none).riskScore))
      = [(.str "Medium", .str "3-5 days", .num 60),
         (.str "High", .str "1-2 days", .num 85),
         (.str "Medium", .str "3-5 days", .num 58)] ∧
    sampleComplaints.map (fun c => (c.priority, c.estimatedResolution, c.riskScore))
      = [("High", "1-2 days", 75), ("Medium", "3-5 days", 55),
         ("Medium", "3-5 days", 58)] := by
  decide

/-! ## Risk score and priority order -/

/-- The range of the risk score for each priority. -/
theorem riskScore_by_priority (description : String) (imageUrl : Option String) :
    ∃ n : Int, (builtInAIAnalyzer description imageUrl).riskScore = .num n ∧
      (detectPriority (toLowerCase description) = "Critical" → 90 ≤ n ∧ n ≤ 100) ∧
      (detectPriority (toLowerCase description) = "High" → 70 ≤ n ∧ n ≤ 90) ∧
      (detectPriority (toLowerCase description) = "Medium" → 50 ≤ n ∧ n ≤ 70) ∧
      (detectPriority (toLowerCase description) = "Low" → 25 ≤ n ∧ n ≤ 45) := by
  obtain ⟨b, k, hb, _, _, _, hk₀, hk₁, hraw⟩ :=
    rawRiskScore_table (detectPriority (toLowerCase description))
      (detectCategory (toLowerCase description)) (detectPriority_mem _)
      (detectCategory_mem _) imageUrl
  have him := imageBonus_bounds imageUrl
  refine ⟨min 100 (b + k + imageBonus imageUrl), ?_, ?_, ?_, ?_, ?_⟩
  · rw [result_riskScore_eq, hraw]
    rfl
  all_goals
    intro hp
    rw [hp] at hb
    have hb' : b = _ := (Option.some.inj hb).symm
    rw [hb']
    constructor <;> omega

/-- C28: of two results of the built-in analyzer, the one with the strictly higher
priority in the order Critical > High > Medium > Low has a risk score at least as
large; every result that is not Critical scores at most 90 and every Critical result
at least 90. -/
theorem builtInAIAnalyzer_riskScore_monotone (d₁ d₂ : String) (i₁ i₂ : Option String) :
    ∃ (p₁ p₂ : String) (n₁ n₂ : Int),
      (builtInAIAnalyzer d₁ i₁).priority = .str p₁ ∧
      (builtInAIAnalyzer d₂ i₂).priority = .str p₂ ∧
      (builtInAIAnalyzer d₁ i₁).riskScore = .num n₁ ∧
      (builtInAIAnalyzer d₂ i₂).riskScore = .num n₂ ∧
      (specPriorityRank p₂ < specPriorityRank p₁ → n₂ ≤ n₁) ∧
      (p₁ ≠ "Critical" → n₁ ≤ 90) ∧ (p₁ = "Critical" → 90 ≤ n₁) := by
  obtain ⟨n₁, hn₁, hc₁, hh₁, hm₁, hl₁⟩ := riskScore_by_priority d₁ i₁
  obtain ⟨n₂, hn₂, hc₂, hh₂, hm₂, hl₂⟩ := riskScore_by_priority d₂ i₂
  refine ⟨_, _, n₁, n₂, rfl, rfl, hn₁, hn₂, ?_⟩
  have hmem₁ := detectPriority_mem (toLowerCase d₁)
  have hmem₂ := detectPriority_mem (toLowerCase d₂)
  generalize detectPriority (toLowerCase d₁) = p₁ at hc₁ hh₁ hm₁ hl₁ hmem₁
  generalize detectPriority (toLowerCase d₂) = p₂ at hc₂ hh₂ hm₂ hl₂ hmem₂
  have r₃ : specPriorityRank "Critical" = 3 := rfl
  have r₂ : specPriorityRank "High" = 2 := rfl
  have r₁ : specPriorityRank "Medium" = 1 := rfl
  have r₀ : specPriorityRank "Low" = 0 := rfl
  have e₁ : ("High" : String) ≠ "Critical" := by decide
  have e₂ : ("Medium" : String) ≠ "Critical" := by decide
  have e₃ : ("Low" : String) ≠ "Critical" := by decide
  simp only [priorityNames, List.mem_cons, List.mem_singleton, List.not_mem_nil,
    or_false] at hmem₁ hmem₂
  rcases hmem₁ with rfl | rfl | rfl | rfl
  · have b₁ := hc₁ rfl
    refine ⟨?_, fun h => absurd rfl h, fun _ => b₁.1⟩
    rcases hmem₂ with rfl | rfl | rfl | rfl
    · have := hc₂ rfl; intro _; omega
    · have := hh₂ rfl; intro _; omega
    · have := hm₂ rfl; intro _; omega
    · have := hl₂ rfl; intro _; omega
  · have b₁ := hh₁ rfl
    refine ⟨?_, fun _ => b₁.2, fun h => absurd h e₁⟩
    rcases hmem₂ with rfl | rfl | rfl | rfl
    · rw [r₃, r₂]; intro h; omega
    · rw [r₂]; intro h; omega
    · have := hm₂ rfl; intro _; omega
    · have := hl₂ rfl; intro _; omega
  · have b₁ := hm₁ rfl
    refine ⟨?_, fun _ => by omega, fun h => absurd h e₂⟩
    rcases hmem₂ with rfl | rfl | rfl | rfl
    · rw [r₃, r₁]; intro h; omega
    · rw [r₂, r₁]; intro h; omega
    · rw [r₁]; intro h; omega
    · have := hl₂ rfl; intro _; omega
  · have b₁ := hl₁ rfl
    refine ⟨?_, fun _ => by omega, fun h => absurd h e₃⟩
    rw [r₀]
    intro h
    omega

/-! ## The keyword "broken furniture" -/

/-- A rule exactly one of whose keywords occurs in the text has count one. -/
theorem matchCount_eq_one (text : String) (r : CategoryRule) (kw : String)
    (hnodup : r.keywords.Nodup) (hmem : kw ∈ r.keywords)
    (hyes : includes text kw = true)
    (hno : ∀ k ∈ r.keywords, k ≠ kw → includes text k = false) :
    matchCount text r = 1 := by
  have hcongr : r.keywords.filter (fun k => includes text k)
      = r.keywords.filter (fun k => k == kw) := by
    apply List.filter_congr
    intro k hk
    by_cases hkk : k = kw
    · rw [hkk, hyes]
      simp
    · rw [hno k hk hkk]
      simp [hkk]
  unfold matchCount
  rw [hcongr, ← List.countP_eq_length_filter, ← List.count_eq_countP]
  exact List.count_eq_one_of_mem hnodup hmem

/-- C29: a description whose lowercased text contains "broken furniture" and no
category keyword other than "broken" and "broken furniture" counts one match for
Civil and one for Furniture, and is classified Civil with department "Civil
Engineering Dept.", Civil coming first in the table. -/
theorem builtInAIAnalyzer_broken_furniture (description : String)
    (imageUrl : Option String)
    (hbf : includes (toLowerCase description) "broken furniture" = true)
    (hno : ∀ r ∈ categoryRules, ∀ kw ∈ r.keywords, kw ≠ "broken" →
      kw ≠ "broken furniture" → includes (toLowerCase description) kw = false) :
    (∀ r ∈ categoryRules, r.category = "Civil" ∨ r.category = "Furniture" →
      matchCount (toLowerCase description) r = 1) ∧
    (builtInAIAnalyzer description imageUrl).category = .str "Civil" ∧
    (builtInAIAnalyzer description imageUrl).department
      = .str "Civil Engineering Dept." := by
  have hb : includes (toLowerCase description) "broken" = true :=
    includes_of_infix "broken furniture" (toLowerCase description) "broken"
      (( includes_iff_infix _ _).mp hbf) (by decide)
  have hnodup : ∀ r ∈ categoryRules, r.keywords.Nodup := by decide
  have hcivil : ∀ r ∈ categoryRules, r.category = "Civil" →
      "broken" ∈ r.keywords ∧ ∀ k ∈ r.keywords, k ≠ "broken furniture" := by decide
  have hfurn : ∀ r ∈ categoryRules, r.category = "Furniture" →
      "broken furniture" ∈ r.keywords ∧ ∀ k ∈ r.keywords, k ≠ "broken" := by decide
  have hrest : ∀ r ∈ categoryRules, r.category ≠ "Civil" → r.category ≠ "Furniture" →
      ∀ k ∈ r.keywords, k ≠ "broken" ∧ k ≠ "broken furniture" := by decide
  have hone : ∀ r ∈ categoryRules, r.category = "Civil" ∨ r.category = "Furniture" →
      matchCount (toLowerCase description) r = 1 := by
    intro r hr hcat
    rcases hcat with hc | hf
    · obtain ⟨hmem, hne⟩ := hcivil r hr hc
      exact matchCount_eq_one _ r "broken" (hnodup r hr) hmem hb
        (fun k hk hkb => hno r hr k hk hkb (hne k hk))
    · obtain ⟨hmem, hne⟩ := hfurn r hr hf
      exact matchCount_eq_one _ r "broken furniture" (hnodup r hr) hmem hbf
        (fun k hk hkb => hno r hr k hk (hne k hk) hkb)
  have hzero : ∀ r ∈ categoryRules, r.category ≠ "Civil" → r.category ≠ "Furniture" →
      matchCount (toLowerCase description) r = 0 := by
    intro r hr h₁ h₂
    apply matchCount_eq_zero
    intro k hk
    exact hno r hr k hk (hrest r hr h₁ h₂ k hk).1 (hrest r hr h₁ h₂ k hk).2
  have hle : ∀ r ∈ categoryRules, matchCount (toLowerCase description) r ≤ 1 := by
    intro r hr
    by_cases h₁ : r.category = "Civil"
    · rw [hone r hr (Or.inl h₁)]
    · by_cases h₂ : r.category = "Furniture"
      · rw [hone r hr (Or.inr h₂)]
      · rw [hzero r hr h₁ h₂]
        omega
  have hi : 2 < categoryRules.length := by decide
  have hname : categoryRules[2].category = "Civil" := rfl
  have hc2 : matchCount (toLowerCase description) categoryRules[2] = 1 :=
    hone _ (List.getElem_mem hi) (Or.inl hname)
  have hcat : detectCategory (toLowerCase description) = "Civil" := by
    rw [detectCategory_first_max (toLowerCase description) 2 hi (by rw [hc2]; omega)
      (by rw [hc2]; exact hle) ?_, hname]
    intro j hj
    rw [hc2]
    have hj' : j = 0 ∨ j = 1 := by omega
    rcases hj' with rfl | rfl
    · have h₁ : categoryRules[0].category ≠ "Civil" := by
        show "Plumbing" ≠ "Civil"
        decide
      have h₂ : categoryRules[0].category ≠ "Furniture" := by
        show "Plumbing" ≠ "Furniture"
        decide
      rw [hzero _ (List.getElem_mem _) h₁ h₂]
      omega
    · have h₁ : categoryRules[1].category ≠ "Civil" := by
        show "Electrical" ≠ "Civil"
        decide
      have h₂ : categoryRules[1].category ≠ "Furniture" := by
        show "Electrical" ≠ "Furniture"
        decide
      rw [hzero _ (List.getElem_mem _) h₁ h₂]
      omega
  refine ⟨hone, ?_, ?_⟩
  · rw [result_category_eq, hcat]
  · rw [result_department_eq, hcat]
    rfl

/-- Witness for C29: "Broken furniture in room 12". -/
theorem builtInAIAnalyzer_broken_furniture_witness :
    includes (toLowerCase "Broken furniture in room 12") "broken furniture" = true ∧
    (builtInAIAnalyzer "Broken furniture in room 12" none).category = .str "Civil" ∧
    (builtInAIAnalyzer "Broken furniture in room 12" none).department
      = .str "Civil Engineering Dept." :=
  ⟨by decide,
    (builtInAIAnalyzer_broken_furniture "Broken furniture in room 12" none (by decide)
      (by decide)).2⟩

/-! ## Adding text around a description -/

/-- With the two sigmas identified, the lowercase form of a character does not depend
on its context. -/
theorem lowerChar_foldSigma (before : List Char) (c : Char) (after : List Char) :
    (lowerChar before c after).map foldSigma = (lowerChar [] c []).map foldSigma := by
  unfold lowerChar
  by_cases h : c.toNat = 0x3A3
  · rw [if_pos h, if_pos h]
    split <;> split <;> decide
  · rw [if_neg h, if_neg h]

/-- With the two sigmas identified, lowercasing is character by character. -/
theorem lowerList_foldSigma (l : List Char) :
    ∀ before, (lowerList before l).map foldSigma = foldedLower l := by
  induction l with
  | nil => intro _; rfl
  | cons c cs ih =>
    intro before
    simp only [lowerList, foldedLower, List.map_append]
    rw [lowerChar_foldSigma, ih]

/-- Context-free lowercasing distributes over concatenation. -/
theorem foldedLower_append (a b : List Char) :
    foldedLower (a ++ b) = foldedLower a ++ foldedLower b := by
  induction a with
  | nil => rfl
  | cons c cs ih =>
    show (lowerChar [] c []).map foldSigma ++ foldedLower (cs ++ b)
      = ((lowerChar [] c []).map foldSigma ++ foldedLower cs) ++ foldedLower b
    rw [ih, List.append_assoc]

/-- A character other than U+03C3 has only itself as preimage under `foldSigma`. -/
theorem foldSigma_eq (y x : Char) (h : foldSigma y = x) (hx : x.toNat ≠ 0x3C3) : y = x := by
  unfold foldSigma at h
  by_cases hy : y.toNat = 0x3C2
  · rw [if_pos hy] at h
    rw [← h] at hx
    exact absurd (by decide) hx
  · rw [if_neg hy] at h
    exact h

/-- A character other than U+03C2 is unchanged by `foldSigma`. -/
theorem foldSigma_self (x : Char) (hx : x.toNat ≠ 0x3C2) : foldSigma x = x := by
  unfold foldSigma
  rw [if_neg hx]

/-- A text without U+03C3 has only itself as preimage under `foldSigma`. -/
theorem map_foldSigma_eq (b : List Char) :
    ∀ kw : List Char, b.map foldSigma = kw → (∀ x ∈ kw, x.toNat ≠ 0x3C3) → b = kw := by
  induction b with
  | nil => intro kw h _; simpa using h
  | cons y ys ih =>
    intro kw h hkw
    cases kw with
    | nil => simp at h
    | cons x xs =>
      simp only [List.map_cons, List.cons.injEq] at h
      rw [foldSigma_eq y x h.1 (hkw x (List.mem_cons_self _ _)),
        ih xs h.2 (fun z hz => hkw z (List.mem_cons_of_mem _ hz))]

/-- A text without U+03C2 is unchanged by `foldSigma`. -/
theorem map_foldSigma_self (kw : List Char) (h : ∀ x ∈ kw, x.toNat ≠ 0x3C2) :
    kw.map foldSigma = kw := by
  induction kw with
  | nil => rfl
  | cons x xs ih =>
    simp only [List.map_cons]
    rw [foldSigma_self x (h x (List.mem_cons_self _ _)),
      ih (fun z hz => h z (List.mem_cons_of_mem _ hz))]

/-- A text without U+03C3 that occurs in a text with the sigmas identified occurs in
the text itself. -/
theorem contained_of_map_foldSigma (kw X : List Char) (hkw : ∀ x ∈ kw, x.toNat ≠ 0x3C3)
    (h : kw <:+: X.map foldSigma) : kw <:+: X := by
  obtain ⟨s, t, hst⟩ := h
  obtain ⟨l₁, l₂, hX, h₁, h₂⟩ := List.map_eq_append_iff.mp hst.symm
  obtain ⟨a, b, hl₁, ha, hb⟩ := List.map_eq_append_iff.mp h₁
  have hbk : b = kw := map_foldSigma_eq b kw hb hkw
  exact ⟨a, l₂, by rw [hX, hl₁, hbk]⟩

/-- What the check `sigmaFree` says. -/
theorem sigmaFree_spec (kw : String) (h : sigmaFree kw = true) :
    (∀ x ∈ kw.data, x.toNat ≠ 0x3C2) ∧ (∀ x ∈ kw.data, x.toNat ≠ 0x3C3) := by
  unfold sigmaFree at h
  rw [List.all_eq_true] at h
  constructor <;> intro x hx <;> have := h x hx <;> simp at this <;> tauto

/-- A keyword without sigma found in the lowercased description is found in the
lowercased text that surrounds the description with more text. -/
theorem includes_toLowerCase_context (p d s kw : String) (hkw : sigmaFree kw = true)
    (h : includes (toLowerCase d) kw = true) :
    includes (toLowerCase (p ++ d ++ s)) kw = true := by
  obtain ⟨h₂, h₃⟩ := sigmaFree_spec kw hkw
  rw [ includes_iff_infix] at h ⊢
  apply contained_of_map_foldSigma _ _ h₃
  have hmap := h.map foldSigma
  rw [map_foldSigma_self _ h₂] at hmap
  have e₁ : (toLowerCase d).data.map foldSigma = foldedLower d.data :=
    lowerList_foldSigma d.data []
  have e₂ : (toLowerCase (p ++ d ++ s)).data.map foldSigma
      = foldedLower p.data ++ foldedLower d.data ++ foldedLower s.data := by
    have : (toLowerCase (p ++ d ++ s)).data.map foldSigma
        = foldedLower (p ++ d ++ s).data := lowerList_foldSigma _ []
    rw [this, String.data_append, String.data_append, foldedLower_append,
      foldedLower_append]
  rw [e₁] at hmap
  rw [e₂]
  exact hmap.trans ⟨foldedLower p.data, foldedLower s.data, rfl⟩

/-- Counts do not decrease when every keyword of the rule found in one text is found in
the other. -/
theorem matchCount_mono (t₁ t₂ : String) (r : CategoryRule)
    (h : ∀ kw ∈ r.keywords, includes t₁ kw = true → includes t₂ kw = true) :
    matchCount t₁ r ≤ matchCount t₂ r := by
  unfold matchCount
  generalize r.keywords = l at h
  induction l with
  | nil => exact Nat.le_refl _
  | cons k ks ih =>
    have ih' := ih (fun kw hkw => h kw (List.mem_cons_of_mem _ hkw))
    by_cases h₁ : includes t₁ k = true
    · have h₂ := h k (List.mem_cons_self _ _) h₁
      rw [List.filter_cons_of_pos h₁, List.filter_cons_of_pos h₂, List.length_cons,
        List.length_cons]
      exact Nat.succ_le_succ ih'
    · rw [List.filter_cons_of_neg h₁]
      by_cases h₂ : includes t₂ k = true
      · rw [List.filter_cons_of_pos h₂, List.length_cons]
        exact Nat.le_succ_of_le ih'
      · rw [List.filter_cons_of_neg h₂]
        exact ih'

/-- No keyword of the category rules or of the critical list contains a sigma. -/
theorem keywords_sigmaFree :
    (∀ r ∈ categoryRules, ∀ kw ∈ r.keywords, sigmaFree kw = true) ∧
    (∀ kw ∈ criticalKeywords, sigmaFree kw = true) := by
  decide

/-- C30: when a description is classified Critical, so is every description obtained
by putting text before and after it, and no category rule loses matches. -/
theorem builtInAIAnalyzer_critical_stable (description : String)
    (imageUrl : Option String)
    (h : (builtInAIAnalyzer description imageUrl).priority = .str "Critical")
    (p s : String) :
    (builtInAIAnalyzer (p ++ description ++ s) imageUrl).priority = .str "Critical" ∧
    ∀ r ∈ categoryRules,
      matchCount (toLowerCase description) r
        ≤ matchCount (toLowerCase (p ++ description ++ s)) r := by
  have hinc : ∀ kw, sigmaFree kw = true →
      includes (toLowerCase description) kw = true →
      includes (toLowerCase (p ++ description ++ s)) kw = true :=
    fun kw hfree hkw => includes_toLowerCase_context p description s kw hfree hkw
  constructor
  · rw [result_priority_eq] at h
    have hd := JSValue.str.inj h
    have hcrit : ∃ kw ∈ criticalKeywords,
        includes (toLowerCase description) kw = true := by
      rcases detectPriority_cases (toLowerCase description) with
        ⟨_, hc⟩ | ⟨hp, _⟩ | ⟨hp, _⟩ | ⟨hp, _⟩
      · exact hc
      · rw [hp] at hd; exact absurd hd (by decide)
      · rw [hp] at hd; exact absurd hd (by decide)
      · rw [hp] at hd; exact absurd hd (by decide)
    obtain ⟨kw, hmem, hkw⟩ := hcrit
    have hcrit' : ∃ kw ∈ criticalKeywords,
        includes (toLowerCase (p ++ description ++ s)) kw = true :=
      ⟨kw, hmem, hinc kw (keywords_sigmaFree.2 kw hmem) hkw⟩
    rw [result_priority_eq]
    rcases detectPriority_cases (toLowerCase (p ++ description ++ s)) with
      ⟨hp, _⟩ | ⟨_, hn, _⟩ | ⟨_, hn, _⟩ | ⟨_, hn, _⟩
    · rw [hp]
    · exact absurd hcrit' hn
    · exact absurd hcrit' hn
    · exact absurd hcrit' hn
  · intro r hr
    exact matchCount_mono _ _ r
      (fun kw hkw => hinc kw (keywords_sigmaFree.1 r hr kw hkw))

/-- Witness for C30: "gas leak" stays Critical inside "Minor GAS LEAK near the
stove". -/
theorem builtInAIAnalyzer_critical_stable_witness :
    (builtInAIAnalyzer "gas leak" none).priority = .str "Critical" ∧
    (builtInAIAnalyzer ("Minor " ++ "gas leak" ++ " near the stove") none).priority
      = .str "Critical" :=
  ⟨by decide,
    (builtInAIAnalyzer_critical_stable "gas leak" none (by decide) "Minor "
      " near the stove").1⟩

end AiService
